import Mathlib

/-!
slime-vball: physics step and point lifecycle of `main.c`.

A shallow embedding of the simulation core of `src/main.c`: the entity records, the
axis-aligned bounding-box test, the player-ball collision handler, the per-frame
`update_match`, and the point / game lifecycle (`new_match`, `new_game`, and the
point-end step of the main loop).

Modelling conventions.

* C `float` / `double` values are modelled as exact rationals `ℚ`: every finite
  floating-point value is a rational, and the arithmetic is taken without rounding
  (no NaN, no infinities).  Statements that depend on rounding are outside the model.
* C `int` values (`s1`, `s2`, `winner`, `human`, the results of `aabbox_coll`) are `Int`;
  signed overflow is undefined behaviour in C and is not modelled.
* `SDL_Rect` has `Sint16 x, y` and `Uint16 w, h`; they are `Int` and `Nat` here.
* `sqrt` comes from libm, not from this repository: every function that calls it takes
  it as a parameter `sqrt : ℚ → ℚ`.  `sqrtQ` is one concrete, computable instance
  used to evaluate the model on concrete inputs.
* The global `net_full` is an explicit parameter: `main` calls `new_game` once before
  it fills `net_full` in (while it is still zero-initialised) and runs the frame loop
  after.
* `POW2(x)` is the textual macro `x*x`; its uses are expanded exactly as the C
  preprocessor expands them, with C operator precedence.
-/

namespace SlimeVball

/-! ## Constants (`main.c` lines 13-66) -/

/-- `const float EPSILON = 0.001f`. -/
def EPSILON : ℚ := 0.001

/-- `const int SCREEN_WIDTH = 750`. -/
def SCREEN_WIDTH : Int := 750

/-- `const int SCREEN_HEIGHT = 375`. -/
def SCREEN_HEIGHT : Int := 375

/-- `const float PLAY_HEIGHT = 300.`: the y coordinate of the floor line. -/
def PLAY_HEIGHT : ℚ := 300

/-- `const float BALL_RADIUS = 10.`. -/
def BALL_RADIUS : ℚ := 10

/-- `const float BALL_GRAVITY = 0.4`. -/
def BALL_GRAVITY : ℚ := 0.4

/-- `const float PLAYER_RADIUS = 36.`. -/
def PLAYER_RADIUS : ℚ := 36

/-- `const float PLAYER_MOVE_ACC = 2.`. -/
def PLAYER_MOVE_ACC : ℚ := 2

/-- `const float PLAYER_MOVE_FRICT = 0.6`. -/
def PLAYER_MOVE_FRICT : ℚ := 0.6

/-- `const float PLAYER_JUMP_VEL = 11.`. -/
def PLAYER_JUMP_VEL : ℚ := 11

/-- `const float PLAYER_GRAVITY = 0.7`. -/
def PLAYER_GRAVITY : ℚ := 0.7

/-- `const float MIN_BOUNCE_SPEED = 3.`. -/
def MIN_BOUNCE_SPEED : ℚ := 3

/-- `const float MAX_BOUNCE_SPEED = 13.`. -/
def MAX_BOUNCE_SPEED : ℚ := 13

/-- `const int MAX_SCORE = 6`. -/
def MAX_SCORE : Int := 6

/-- `const float NET_WIDTH = 8.`. -/
def NET_WIDTH : ℚ := 8

/-- `const float NET_HEIGHT = 50.`. -/
def NET_HEIGHT : ℚ := 50

/-- `const float NET_EPSILON = 5.`. -/
def NET_EPSILON : ℚ := 5

/-! ## Structures (`main.c` lines 72-100) -/

/-- `vect_t`: a pair of floats. -/
structure vect_t where
  x : ℚ
  y : ℚ
  deriving DecidableEq

/-- `SDL_Rect`: `Sint16 x, y; Uint16 w, h`. -/
structure SDL_Rect where
  x : Int
  y : Int
  w : Nat
  h : Nat
  deriving DecidableEq

/-- `ent_t`: position, bounding rectangle, acceleration, velocity. -/
structure ent_t where
  pos : vect_t
  rect : SDL_Rect
  acc : vect_t
  vel : vect_t
  deriving DecidableEq

/-- `player_t`. -/
structure player_t where
  human : Int
  ent : ent_t
  deriving DecidableEq

/-- `match_t`. -/
structure match_t where
  p1 : player_t
  p2 : player_t
  ball : ent_t
  deriving DecidableEq

/-- `game_t`; the C field `match` is spelled `match_` (`match` is a Lean keyword). -/
structure game_t where
  match_ : match_t
  s1 : Int
  s2 : Int
  winner : Int
  deriving DecidableEq

/-! ## Numeric helpers -/

/-- Newton iteration for the integer square root of `n`, started at `k`, with explicit
fuel (the iterates decrease strictly until the root is reached). -/
def isqrt_iter : Nat → Nat → Nat → Nat
  | 0, _, k => k
  | fuel + 1, n, k =>
    let next := (k + n / k) / 2
    if next < k then isqrt_iter fuel n next else k

/-- Integer square root. -/
def isqrt (n : Nat) : Nat := if n ≤ 1 then n else isqrt_iter n n n

/-- A computable stand-in for libm `sqrt` on rationals: the integer square root of
`num * den` over `den`.  Where a statement below relies on its value being the exact
square root, that is part of the statement. -/
def sqrtQ (x : ℚ) : ℚ := (isqrt (x.num.toNat * x.den) : ℚ) / (x.den : ℚ)

/-- C `round`: to the nearest integer, halfway cases away from zero. -/
def c_round (q : ℚ) : Int := if 0 ≤ q then ⌊q + 1 / 2⌋ else ⌈q - 1 / 2⌉

/-- Conversion of a non-negative float to `Uint16` (truncation), as in
`rect.w = BALL_RADIUS*2`. -/
def to_uint16 (q : ℚ) : Nat := ⌊q⌋₊ % 65536

/-- Squared Euclidean norm of a vector: the norm lies in `[a, b]` (with `0 ≤ a`) exactly
when `a * a ≤ norm_sq v ≤ b * b`. -/
def norm_sq (v : vect_t) : ℚ := v.x * v.x + v.y * v.y

/-! ## `aabbox_coll` (`main.c` lines 133-151) -/

/-- Axis-aligned bounding-box collision: `0` as soon as one of the four separating
conditions holds, else `1`. -/
def aabbox_coll (e1 e2 : ent_t) : Int :=
  if e1.pos.y + (e1.rect.h : ℚ) ≤ e2.pos.y then 0
  else if e1.pos.y ≥ e2.pos.y + (e2.rect.h : ℚ) then 0
  else if e1.pos.x + (e1.rect.w : ℚ) ≤ e2.pos.x then 0
  else if e1.pos.x ≥ e2.pos.x + (e2.rect.w : ℚ) then 0
  else 1

/-! ## `pb_coll_handler` (`main.c` lines 154-208) -/

/-- Lines 160-167: `speed = sqrt(bvx*bvx + bvy*bvy) + sqrt(pvx*pvx + pvy*pvy) + EPSILON`,
then clamped to `[MIN_BOUNCE_SPEED, MAX_BOUNCE_SPEED]`. -/
def bounce_speed (sqrt : ℚ → ℚ) (p : player_t) (ball : ent_t) : ℚ :=
  let speed := sqrt (ball.vel.x * ball.vel.x + ball.vel.y * ball.vel.y)
      + sqrt (p.ent.vel.x * p.ent.vel.x + p.ent.vel.y * p.ent.vel.y) + EPSILON
  if speed < MIN_BOUNCE_SPEED then MIN_BOUNCE_SPEED
  else if speed > MAX_BOUNCE_SPEED then MAX_BOUNCE_SPEED
  else speed

/-- Lines 170-173: `new_vel`, the vector from the player's centre to the ball's centre. -/
def delta (p : player_t) (ball : ent_t) : vect_t :=
  { x := (ball.pos.x + BALL_RADIUS) - (p.ent.pos.x + PLAYER_RADIUS)
    y := (ball.pos.y + BALL_RADIUS) - (p.ent.pos.y + PLAYER_RADIUS) }

/-- Lines 191-194: the value of `tmp`.  `POW2(a - b)` expands textually to
`a - b*a - b` (with `a = ball->pos.x + BALL_RADIUS`, `b = (p->ent.pos.x + PLAYER_RADIUS)`),
so this is not the squared distance of the centres. -/
def narrow_tmp (p : player_t) (ball : ent_t) : ℚ :=
  ball.pos.x + BALL_RADIUS
    - (p.ent.pos.x + PLAYER_RADIUS) * ball.pos.x + BALL_RADIUS
    - (p.ent.pos.x + PLAYER_RADIUS)
    + ball.pos.y + BALL_RADIUS
    - (p.ent.pos.y + PLAYER_RADIUS) * ball.pos.y + BALL_RADIUS
    - (p.ent.pos.y + PLAYER_RADIUS)

/-- Line 195: `POW2(BALL_RADIUS + PLAYER_RADIUS)` expands to
`BALL_RADIUS + PLAYER_RADIUS*BALL_RADIUS + PLAYER_RADIUS`. -/
def narrow_bound : ℚ := BALL_RADIUS + PLAYER_RADIUS * BALL_RADIUS + PLAYER_RADIUS

/-- Player-ball collision handler.  The C function receives both records by pointer;
the model returns both, so that what it leaves untouched is a statement about the model. -/
def pb_coll_handler (sqrt : ℚ → ℚ) (p : player_t) (ball : ent_t) : player_t × ent_t :=
  if aabbox_coll p.ent ball ≠ 0 then
    let speed := bounce_speed sqrt p ball
    let new_vel := delta p ball
    if new_vel.y > 0 then
      if ball.pos.x ≥ p.ent.pos.x + 2 * PLAYER_RADIUS - EPSILON then
        (p, { ball with vel := { x := speed, y := 0 } })
      else if ball.pos.x + 2 * BALL_RADIUS ≤ p.ent.pos.x - EPSILON then
        (p, { ball with vel := { x := -speed, y := 0 } })
      else
        (p, { ball with vel := { x := 0, y := speed } })
    else
      if narrow_tmp p ball < narrow_bound then
        let tmp := sqrt (new_vel.x * new_vel.x + new_vel.y * new_vel.y) + EPSILON
        (p, { ball with vel := { x := speed * new_vel.x / tmp, y := speed * new_vel.y / tmp } })
      else (p, ball)
  else (p, ball)

/-- The path condition under which `pb_coll_handler` executes an assignment to
`ball->vel`: the boxes overlap and either `new_vel.y > 0` (lines 177-189, which always
assign) or the test of line 195 succeeds. -/
def pb_assigns (p : player_t) (ball : ent_t) : Prop :=
  aabbox_coll p.ent ball ≠ 0 ∧ ((delta p ball).y > 0 ∨ narrow_tmp p ball < narrow_bound)

instance (p : player_t) (ball : ent_t) : Decidable (pb_assigns p ball) := by
  unfold pb_assigns
  infer_instance

/-! ## `update_ent`, `update_rect`, `update_player` (`main.c` lines 211-235) -/

/-- Integration step: velocity first, then position with the new velocity. -/
def update_ent (ent : ent_t) : ent_t :=
  let vx := ent.vel.x + ent.acc.x
  let vy := ent.vel.y + ent.acc.y
  { ent with vel := { x := vx, y := vy }, pos := { x := ent.pos.x + vx, y := ent.pos.y + vy } }

/-- Refresh the integer drawing rectangle from the float position. -/
def update_rect (ent : ent_t) : ent_t :=
  { ent with rect := { ent.rect with x := c_round ent.pos.x, y := c_round ent.pos.y } }

/-- Integrate the player, damp `vel.x`, clamp to the floor. -/
def update_player (player : player_t) : player_t :=
  let e := update_ent player.ent
  let e := { e with vel := { x := e.vel.x * PLAYER_MOVE_FRICT, y := e.vel.y } }
  let e := if e.pos.y > PLAY_HEIGHT - PLAYER_RADIUS then
      { e with pos := { x := e.pos.x, y := PLAY_HEIGHT - PLAYER_RADIUS },
               vel := { x := e.vel.x, y := 0 } }
    else e
  { player with ent := e }

/-! ## `update_match` (`main.c` lines 238-313) -/

/-- Lines 241-255: integrate the ball; on floor contact clamp it and award the point. -/
def floor_step (game : game_t) : game_t :=
  let ball := update_ent game.match_.ball
  if ball.pos.y > PLAY_HEIGHT - BALL_RADIUS * 2 then
    let ball := { ball with pos := { x := ball.pos.x, y := PLAY_HEIGHT - BALL_RADIUS * 2 } }
    if ball.pos.x < ((SCREEN_WIDTH / 2 : Int) : ℚ) - BALL_RADIUS then
      { game with match_ := { game.match_ with ball := ball }, winner := 2, s2 := game.s2 + 1 }
    else
      { game with match_ := { game.match_ with ball := ball }, winner := 1, s1 := game.s1 + 1 }
  else
    { game with match_ := { game.match_ with ball := ball } }

/-- Lines 262-268: player 1 x bounds. -/
def p1_x_bounds (e : ent_t) : ent_t :=
  if e.pos.x < 0 then { e with pos := { x := 0, y := e.pos.y } }
  else if e.pos.x > ((SCREEN_WIDTH / 2 : Int) : ℚ) - NET_WIDTH / 2 - 2 * PLAYER_RADIUS - 2 then
    { e with pos := { x := ((SCREEN_WIDTH / 2 : Int) : ℚ) - NET_WIDTH / 2 - 2 * PLAYER_RADIUS - 2,
                      y := e.pos.y } }
  else e

/-- Lines 271-276: player 2 x bounds. -/
def p2_x_bounds (e : ent_t) : ent_t :=
  if e.pos.x > (SCREEN_WIDTH : ℚ) - 2 * PLAYER_RADIUS - 1 then
    { e with pos := { x := (SCREEN_WIDTH : ℚ) - 2 * PLAYER_RADIUS - 1, y := e.pos.y } }
  else if e.pos.x < ((SCREEN_WIDTH / 2 : Int) : ℚ) + NET_WIDTH / 2 + 1 then
    { e with pos := { x := ((SCREEN_WIDTH / 2 : Int) : ℚ) + NET_WIDTH / 2 + 1, y := e.pos.y } }
  else e

/-- Lines 279-285: ball x bounds (side walls). -/
def ball_x_bounds (ball : ent_t) : ent_t :=
  if ball.pos.x ≤ 0 then
    { ball with pos := { x := 0, y := ball.pos.y }, vel := { x := ball.vel.x * -1, y := ball.vel.y } }
  else if ball.pos.x ≥ (SCREEN_WIDTH : ℚ) - 2 * BALL_RADIUS then
    { ball with pos := { x := (SCREEN_WIDTH : ℚ) - 2 * BALL_RADIUS, y := ball.pos.y },
                vel := { x := ball.vel.x * -1, y := ball.vel.y } }
  else ball

/-- Lines 292-308: net collision. -/
def net_step (net_full : ent_t) (ball : ent_t) : ent_t :=
  if aabbox_coll net_full ball ≠ 0 then
    if ball.pos.y + 2 * BALL_RADIUS - NET_EPSILON > net_full.pos.y then
      let ball := if ball.vel.x > 0 then
          { ball with pos := { x := ((SCREEN_WIDTH / 2 : Int) : ℚ) - NET_WIDTH / 2 - 2 * BALL_RADIUS,
                               y := ball.pos.y } }
        else
          { ball with pos := { x := ((SCREEN_WIDTH / 2 : Int) : ℚ) + NET_WIDTH / 2, y := ball.pos.y } }
      { ball with vel := { x := ball.vel.x * -1, y := ball.vel.y } }
    else
      { ball with vel := { x := ball.vel.x, y := ball.vel.y * -1 },
                  pos := { x := ball.pos.x, y := PLAY_HEIGHT - NET_HEIGHT - 2 * BALL_RADIUS } }
  else ball

/-- One simulation tick. -/
def update_match (sqrt : ℚ → ℚ) (net_full : ent_t) (game : game_t) : game_t :=
  let game := floor_step game
  let p1 := update_player game.match_.p1
  let p2 := update_player game.match_.p2
  let p1 := { p1 with ent := p1_x_bounds p1.ent }
  let p2 := { p2 with ent := p2_x_bounds p2.ent }
  let ball := ball_x_bounds game.match_.ball
  let r1 := pb_coll_handler sqrt p1 ball
  let r2 := pb_coll_handler sqrt p2 r1.2
  let ball := net_step net_full r2.2
  { game with match_ :=
      { p1 := { r1.1 with ent := update_rect r1.1.ent }
        p2 := { r2.1 with ent := update_rect r2.1.ent }
        ball := update_rect ball } }

/-! ## `new_match`, `new_game` (`main.c` lines 316-367) -/

/-- Lines 317-341 of `new_match`: players and ball reset for the serve, `winner` cleared;
this is the state on which `new_match` then runs `update_match`. -/
def serve_state (game : game_t) : game_t :=
  let p1e := game.match_.p1.ent
  let p1 : player_t :=
    { human := 1
      ent := { p1e with
        pos := { x := ((SCREEN_WIDTH / 4 : Int) : ℚ) - PLAYER_RADIUS, y := PLAY_HEIGHT - PLAYER_RADIUS }
        acc := { x := 0, y := p1e.acc.y }
        vel := { x := 0, y := 0 } } }
  let p2e := game.match_.p2.ent
  let p2 : player_t :=
    { human := 1
      ent := { p2e with
        pos := { x := ((3 * SCREEN_WIDTH / 4 : Int) : ℚ) - PLAYER_RADIUS,
                 y := PLAY_HEIGHT - PLAYER_RADIUS }
        acc := { x := 0, y := p2e.acc.y }
        vel := { x := 0, y := 0 } } }
  let bx : ℚ := if game.winner = 1 then ((SCREEN_WIDTH / 4 : Int) : ℚ) - BALL_RADIUS
    else ((3 * SCREEN_WIDTH / 4 : Int) : ℚ) - BALL_RADIUS
  let ball : ent_t :=
    { game.match_.ball with
      pos := { x := bx, y := PLAY_HEIGHT / 2 }
      vel := { x := 0, y := 0 } }
  { game with match_ := { p1 := p1, p2 := p2, ball := ball }, winner := 0 }

/-- Start a new point: reset the players and the ball, clear `winner`, run one tick
(line 343). -/
def new_match (sqrt : ℚ → ℚ) (net_full : ent_t) (game : game_t) : game_t :=
  update_match sqrt net_full (serve_state game)

/-- Start a new game: zero the scores, set sizes and gravities, start a point. -/
def new_game (sqrt : ℚ → ℚ) (net_full : ent_t) (game : game_t) : game_t :=
  let b := game.match_.ball
  let ball : ent_t :=
    { b with
      rect := { b.rect with w := to_uint16 (BALL_RADIUS * 2), h := to_uint16 (BALL_RADIUS * 2) }
      acc := { x := 0, y := BALL_GRAVITY } }
  let e1 := game.match_.p1.ent
  let p1 : player_t :=
    { game.match_.p1 with
      ent := { e1 with
        rect := { e1.rect with w := to_uint16 (2 * PLAYER_RADIUS), h := to_uint16 PLAYER_RADIUS }
        acc := { x := e1.acc.x, y := PLAYER_GRAVITY } } }
  let e2 := game.match_.p2.ent
  let p2 : player_t :=
    { game.match_.p2 with
      ent := { e2 with
        rect := { e2.rect with w := to_uint16 (2 * PLAYER_RADIUS), h := to_uint16 PLAYER_RADIUS }
        acc := { x := e2.acc.x, y := PLAYER_GRAVITY } } }
  new_match sqrt net_full
    { match_ := { p1 := p1, p2 := p2, ball := ball }, s1 := 0, s2 := 0, winner := 1 }

/-! ## The main loop (`main.c` lines 461-464 and 534-542) -/

/-- The global `net_full` before `main` fills it in (static storage is zero-initialised);
this is its value during the first `new_game` call. -/
def net_full_zero : ent_t :=
  { pos := { x := 0, y := 0 }, rect := { x := 0, y := 0, w := 0, h := 0 },
    acc := { x := 0, y := 0 }, vel := { x := 0, y := 0 } }

/-- The global `net_full` as set up in `main` (lines 461-464). -/
def net_full_main : ent_t :=
  { net_full_zero with
    pos := { x := ((SCREEN_WIDTH / 2 : Int) : ℚ) - NET_WIDTH / 2, y := PLAY_HEIGHT - NET_HEIGHT }
    rect := { x := 0, y := 0, w := to_uint16 NET_WIDTH, h := to_uint16 NET_HEIGHT } }

/-- Lines 534-542: what the main loop does after a tick once a point has ended
(`SDL_Delay` has no effect on the game state). -/
def point_end (sqrt : ℚ → ℚ) (net_full : ent_t) (game : game_t) : game_t :=
  if game.winner ≠ 0 then
    if game.s1 ≥ MAX_SCORE ∨ game.s2 ≥ MAX_SCORE then new_game sqrt net_full game
    else new_match sqrt net_full game
  else game

/-- The fields that `new_game` sets and that no other code writes: the sizes of the three
entities and their gravities (and the ball's zero horizontal acceleration). -/
def initialised (game : game_t) : Prop :=
  game.match_.ball.rect.w = to_uint16 (BALL_RADIUS * 2)
  ∧ game.match_.ball.rect.h = to_uint16 (BALL_RADIUS * 2)
  ∧ game.match_.ball.acc = { x := 0, y := BALL_GRAVITY }
  ∧ game.match_.p1.ent.rect.w = to_uint16 (2 * PLAYER_RADIUS)
  ∧ game.match_.p1.ent.rect.h = to_uint16 PLAYER_RADIUS
  ∧ game.match_.p1.ent.acc.y = PLAYER_GRAVITY
  ∧ game.match_.p2.ent.rect.w = to_uint16 (2 * PLAYER_RADIUS)
  ∧ game.match_.p2.ent.rect.h = to_uint16 PLAYER_RADIUS
  ∧ game.match_.p2.ent.acc.y = PLAYER_GRAVITY

instance (game : game_t) : Decidable (initialised game) := by
  unfold initialised
  infer_instance

/-! ## The frame loop (`main.c` lines 490-542) -/

/-- The six entries of the global `keys[]` array that the frame loop reads
(`SDLK_a`, `SDLK_d`, `SDLK_w`, `SDLK_LEFT`, `SDLK_RIGHT`, `SDLK_UP`); the event loop
stores `1` on key-down and `0` on key-up. -/
structure keys_t where
  a : Int
  d : Int
  w : Int
  left : Int
  right : Int
  up : Int
  deriving DecidableEq

/-- Lines 491-500 (player 1) and 503-512 (player 2), which differ only in the keys read:
`acc.x` is reset and then set from the left / right keys; the jump key sets `vel.y` when
the player is on the floor. -/
def control_player (k_left k_right k_up : Int) (p : player_t) : player_t :=
  let ax : ℚ := if k_left ≠ 0 then -PLAYER_MOVE_ACC
    else if k_right ≠ 0 then PLAYER_MOVE_ACC else 0
  let vy : ℚ := if k_up ≠ 0 ∧ p.ent.pos.y > PLAY_HEIGHT - PLAYER_RADIUS - EPSILON then
      -PLAYER_JUMP_VEL
    else p.ent.vel.y
  { p with ent := { p.ent with acc := { x := ax, y := p.ent.acc.y },
                               vel := { x := p.ent.vel.x, y := vy } } }

/-- Lines 490-512: the control inputs of both players. -/
def apply_controls (k : keys_t) (game : game_t) : game_t :=
  { game with match_ :=
      { game.match_ with
        p1 := control_player k.a k.d k.w game.match_.p1
        p2 := control_player k.left k.right k.up game.match_.p2 } }

/-- One iteration of the match loop: control inputs, `update_match` (line 522), then the
point-end step (lines 534-542).  Drawing and delays do not touch the game state. -/
def frame (sqrt : ℚ → ℚ) (net_full : ent_t) (k : keys_t) (game : game_t) : game_t :=
  point_end sqrt net_full (update_match sqrt net_full (apply_controls k game))

/-- The match loop run on a finite sequence of per-frame key states. -/
def run_frames (sqrt : ℚ → ℚ) (net_full : ent_t) : List keys_t → game_t → game_t
  | [], game => game
  | k :: ks, game => run_frames sqrt net_full ks (frame sqrt net_full k game)

/-! ## The invariant of the frame loop -/

/-- What holds at the start of every frame: the game is initialised, no point is pending,
and both scores are between `0` and `MAX_SCORE - 1`. -/
def loop_inv (game : game_t) : Prop :=
  initialised game ∧ game.winner = 0
  ∧ 0 ≤ game.s1 ∧ game.s1 ≤ MAX_SCORE - 1 ∧ 0 ≤ game.s2 ∧ game.s2 ≤ MAX_SCORE - 1

/-! ## Admissible player positions -/

/-- The left edge `x` is admissible for player 1 when the clamp of lines 262-268 leaves
it where it is. -/
def p1_admissible (x : ℚ) : Prop :=
  (p1_x_bounds { pos := { x := x, y := 0 }, rect := { x := 0, y := 0, w := 0, h := 0 },
                 acc := { x := 0, y := 0 }, vel := { x := 0, y := 0 } }).pos.x = x

/-- The left edge `x` is admissible for player 2 when the clamp of lines 271-276 leaves
it where it is. -/
def p2_admissible (x : ℚ) : Prop :=
  (p2_x_bounds { pos := { x := x, y := 0 }, rect := { x := 0, y := 0, w := 0, h := 0 },
                 acc := { x := 0, y := 0 }, vel := { x := 0, y := 0 } }).pos.x = x

instance (x : ℚ) : Decidable (p1_admissible x) := by
  unfold p1_admissible
  infer_instance

instance (x : ℚ) : Decidable (p2_admissible x) := by
  unfold p2_admissible
  infer_instance

/-! ## Concrete states used to evaluate the model -/

/-- An entity given by position, size, acceleration and velocity (drawing origin `0, 0`). -/
def ent_of (px py : ℚ) (w h : Nat) (ax ay vx vy : ℚ) : ent_t :=
  { pos := { x := px, y := py }, rect := { x := 0, y := 0, w := w, h := h },
    acc := { x := ax, y := ay }, vel := { x := vx, y := vy } }

/-- A game whose players rest at their serve positions, with sizes and gravities as
`new_game` sets them, and the given ball position, ball velocity, scores and winner. -/
def game_of (bx py vx vy : ℚ) (s1 s2 winner : Int) : game_t :=
  { match_ :=
      { p1 := { human := 1, ent := ent_of 151 264 72 36 0 0.7 0 0 }
        p2 := { human := 1, ent := ent_of 526 264 72 36 0 0.7 0 0 }
        ball := ent_of bx py 20 20 0 0.4 vx vy }
    s1 := s1, s2 := s2, winner := winner }

/-- Ball falling onto the floor in the left half (`pos.x = SCREEN_WIDTH * 0.25`). -/
def game_floor_left : game_t := game_of 187.5 279 0 2 3 4 0

/-- Ball falling onto the floor in the right half. -/
def game_floor_right : game_t := game_of 500 279 0 2 3 4 0

/-- Ball in mid-air. -/
def game_mid_air : game_t := game_of 100 100 1 (-2) 3 4 0

/-- A point has just ended and player 1 has reached `MAX_SCORE`. -/
def game_won : game_t := game_of 500 280 0 2 6 4 1

/-- A point has just ended (for player 2) and nobody has reached `MAX_SCORE`. -/
def game_point : game_t := game_of 100 280 0 2 3 5 2

/-- A box and a second one whose left edge is exactly the first one's right edge. -/
def box_left : ent_t := ent_of 10 10 20 20 0 0 0 0

/-- See `box_left`: `box_left.pos.x + box_left.rect.w = box_touching.pos.x`. -/
def box_touching : ent_t := ent_of 30 15 20 20 0 0 0 0

/-- A player resting on the floor, centred at `(100, 300)`. -/
def player_rest : player_t := { human := 1, ent := ent_of 64 264 72 36 0 0.7 0 0 }

/-- A player in the air (mid-jump), centred at `(100, 236)`. -/
def player_jump : player_t := { human := 1, ent := ent_of 64 200 72 36 0 0.7 0 0 }

/-- A ball far away from `player_rest`. -/
def ball_far : ent_t := ent_of 400 100 20 20 0 0.4 3 (-2)

/-- A ball at rest directly above the centre of `player_rest`, centre `(100, 260)`:
the boxes overlap, `delta = (0, -40)`, centre distance `40 < 46`. -/
def ball_on_top : ent_t := ent_of 90 250 20 20 0 0.4 0 0

/-- A ball overlapping `player_jump` with its centre below the player's centre
(`delta.y = 4 > 0`), moving with velocity `(3, 4)`. -/
def ball_flat : ent_t := ent_of 90 230 20 20 0 0.4 3 4

/-- A ball overlapping the net of `main` well below its top, moving right with
`vel.x = +5`. -/
def ball_at_net : ent_t := ent_of 360 270 20 20 0 0.4 5 1

/-- A ball at `pos.x = 0` moving left. -/
def ball_at_wall : ent_t := ent_of 0 100 20 20 0 0.4 (-5) 1

/-- A ball strictly between the side walls. -/
def ball_inside : ent_t := ent_of 300 100 20 20 0 0.4 (-5) 1

/-- A ball whose box overlaps the box of `player_rest` near its upper right corner:
`delta = (30, -40)`, so the centres are `50 ≥ BALL_RADIUS + PLAYER_RADIUS` apart. -/
def ball_corner : ent_t := ent_of 120 250 20 20 0 0.4 0 0

/-- A ball overlapping `player_jump` on its right flank, centre below the player's. -/
def ball_right_flank : ent_t := ent_of 135.9995 230 20 20 0 0.4 3 4

/-- A ball record with a wider box (`rect.w = 60`) lying left of `player_jump`. -/
def ball_wide_left : ent_t := ent_of 40 230 60 20 0 0.4 3 4

/-- A ball grazing the top of the net of `main`. -/
def ball_net_top : ent_t := ent_of 365 232 20 20 0 0.4 1 3

/-- An entity with non-trivial acceleration and velocity. -/
def ent_moving : ent_t := ent_of 10 20 72 36 2 0.7 (-3) 5

/-- A game in which both players move fast towards the net and the floor. -/
def game_rush : game_t :=
  { match_ :=
      { p1 := { human := 1, ent := ent_of 290 260 72 36 2 0.7 40 9 }
        p2 := { human := 1, ent := ent_of 385 260 72 36 (-2) 0.7 (-40) 9 }
        ball := ent_of 360 270 20 20 0 0.4 5 1 }
    s1 := 0, s2 := 0, winner := 0 }

/-- The zero-initialised global `game` on which `main` first calls `new_game`. -/
def game_zero : game_t :=
  { match_ :=
      { p1 := { human := 0, ent := net_full_zero }
        p2 := { human := 0, ent := net_full_zero }
        ball := net_full_zero }
    s1 := 0, s2 := 0, winner := 0 }

/-- Key states: nothing pressed, and player 1 moving right while player 2 jumps. -/
def keys_none : keys_t := { a := 0, d := 0, w := 0, left := 0, right := 0, up := 0 }

/-- See `keys_none`. -/
def keys_some : keys_t := { a := 0, d := 1, w := 0, left := 0, right := 0, up := 1 }

/-! ## Basic facts about the tick -/

theorem update_match_s1 (sqrt : ℚ → ℚ) (net : ent_t) (g : game_t) :
    (update_match sqrt net g).s1 = (floor_step g).s1 := rfl

theorem update_match_s2 (sqrt : ℚ → ℚ) (net : ent_t) (g : game_t) :
    (update_match sqrt net g).s2 = (floor_step g).s2 := rfl

theorem update_match_winner (sqrt : ℚ → ℚ) (net : ent_t) (g : game_t) :
    (update_match sqrt net g).winner = (floor_step g).winner := rfl

/-- Without floor contact `floor_step` only replaces the ball by the integrated ball. -/
theorem floor_step_no_contact (g : game_t)
    (h : ¬ (update_ent g.match_.ball).pos.y > PLAY_HEIGHT - BALL_RADIUS * 2) :
    floor_step g = { g with match_ := { g.match_ with ball := update_ent g.match_.ball } } := by
  unfold floor_step
  simp only [h, if_false]

/-- The ball that `new_match` hands to its final `update_match` does not reach the floor
when its gravity is the one `new_game` sets. -/
theorem serve_ball_no_contact (g : game_t) (h : g.match_.ball.acc.y = BALL_GRAVITY) :
    ¬ (update_ent (serve_state g).match_.ball).pos.y > PLAY_HEIGHT - BALL_RADIUS * 2 := by
  simp only [serve_state, update_ent, h, PLAY_HEIGHT, BALL_GRAVITY, BALL_RADIUS]
  norm_num

theorem new_match_scores (sqrt : ℚ → ℚ) (net : ent_t) (g : game_t)
    (h : g.match_.ball.acc.y = BALL_GRAVITY) :
    (new_match sqrt net g).s1 = g.s1 ∧ (new_match sqrt net g).s2 = g.s2
      ∧ (new_match sqrt net g).winner = 0 := by
  unfold new_match
  rw [update_match_s1, update_match_s2, update_match_winner,
    floor_step_no_contact _ (serve_ball_no_contact g h)]
  exact ⟨rfl, rfl, rfl⟩

theorem new_game_scores (sqrt : ℚ → ℚ) (net : ent_t) (g : game_t) :
    (new_game sqrt net g).s1 = 0 ∧ (new_game sqrt net g).s2 = 0
      ∧ (new_game sqrt net g).winner = 0 := by
  unfold new_game
  exact new_match_scores sqrt net _ rfl

/-! ## Helper lemmas: conversions, no-overlap cases, the serve state -/

theorem to_uint16_ball : to_uint16 (BALL_RADIUS * 2) = 20 := by
  norm_num [to_uint16, BALL_RADIUS]
theorem to_uint16_player_w : to_uint16 (2 * PLAYER_RADIUS) = 72 := by
  norm_num [to_uint16, PLAYER_RADIUS]
theorem to_uint16_player_h : to_uint16 PLAYER_RADIUS = 36 := by
  norm_num [to_uint16, PLAYER_RADIUS]
theorem to_uint16_net_w : to_uint16 NET_WIDTH = 8 := by
  norm_num [to_uint16, NET_WIDTH]
theorem to_uint16_net_h : to_uint16 NET_HEIGHT = 50 := by
  norm_num [to_uint16, NET_HEIGHT]

theorem pb_coll_handler_no_overlap (sqrt : ℚ → ℚ) (p : player_t) (b : ent_t)
    (h : aabbox_coll p.ent b = 0) : pb_coll_handler sqrt p b = (p, b) := by
  unfold pb_coll_handler
  rw [if_neg (by simp [h])]

theorem net_step_no_overlap (net b : ent_t) (h : aabbox_coll net b = 0) : net_step net b = b := by
  unfold net_step
  rw [if_neg (by simp [h])]

theorem aabbox_coll_below (e1 e2 : ent_t) (h : e2.pos.y + (e2.rect.h : ℚ) ≤ e1.pos.y) :
    aabbox_coll e1 e2 = 0 := by
  unfold aabbox_coll
  split_ifs <;> rfl

theorem aabbox_coll_above (e1 e2 : ent_t) (h : e1.pos.y + (e1.rect.h : ℚ) ≤ e2.pos.y) :
    aabbox_coll e1 e2 = 0 := by
  unfold aabbox_coll
  rw [if_pos h]


theorem update_match_ball (sqrt : ℚ → ℚ) (net : ent_t) (g : game_t) :
    (update_match sqrt net g).match_.ball
      = update_rect (net_step net
          (pb_coll_handler sqrt
            { update_player (floor_step g).match_.p2 with
              ent := p2_x_bounds (update_player (floor_step g).match_.p2).ent }
            (pb_coll_handler sqrt
              { update_player (floor_step g).match_.p1 with
                ent := p1_x_bounds (update_player (floor_step g).match_.p1).ent }
              (ball_x_bounds (floor_step g).match_.ball)).2).2) := rfl

theorem update_match_p1 (sqrt : ℚ → ℚ) (net : ent_t) (g : game_t) :
    (update_match sqrt net g).match_.p1.ent
      = update_rect (pb_coll_handler sqrt
              { update_player (floor_step g).match_.p1 with
                ent := p1_x_bounds (update_player (floor_step g).match_.p1).ent }
              (ball_x_bounds (floor_step g).match_.ball)).1.ent := rfl

theorem pb_coll_handler_fst (sqrt : ℚ → ℚ) (p : player_t) (b : ent_t) :
    (pb_coll_handler sqrt p b).1 = p := by
  simp only [pb_coll_handler]
  split_ifs <;> rfl

/-- The integrated serve ball. -/
theorem serve_ball (g : game_t) (hba : g.match_.ball.acc = { x := 0, y := BALL_GRAVITY }) :
    (floor_step (serve_state g)).match_.ball
      = { g.match_.ball with
          pos := { x := (serve_state g).match_.ball.pos.x, y := PLAY_HEIGHT / 2 + BALL_GRAVITY }
          vel := { x := 0, y := BALL_GRAVITY } } := by
  rw [floor_step_no_contact _ (serve_ball_no_contact g (by rw [hba]))]
  simp [serve_state, update_ent, hba]

theorem serve_ball_x (g : game_t) :
    (serve_state g).match_.ball.pos.x = 177 ∨ (serve_state g).match_.ball.pos.x = 552 := by
  by_cases hw : g.winner = 1
  · left; simp [serve_state, hw, SCREEN_WIDTH, BALL_RADIUS]; norm_num
  · right; simp [serve_state, hw, SCREEN_WIDTH, BALL_RADIUS]; norm_num

theorem ball_x_bounds_inside (b : ent_t) (h0 : 0 < b.pos.x)
    (h1 : b.pos.x < (SCREEN_WIDTH : ℚ) - 2 * BALL_RADIUS) : ball_x_bounds b = b := by
  unfold ball_x_bounds
  rw [if_neg (not_le.mpr h0), if_neg (not_le.mpr h1)]

theorem floor_step_p1 (g : game_t) : (floor_step g).match_.p1 = g.match_.p1 := by
  simp only [floor_step]
  split_ifs <;> rfl

theorem floor_step_p2 (g : game_t) : (floor_step g).match_.p2 = g.match_.p2 := by
  simp only [floor_step]
  split_ifs <;> rfl

theorem serve_p1 (g : game_t) (h : g.match_.p1.ent.acc.y = PLAYER_GRAVITY) :
    (p1_x_bounds (update_player (floor_step (serve_state g)).match_.p1).ent).pos
        = { x := ((SCREEN_WIDTH / 4 : Int) : ℚ) - PLAYER_RADIUS, y := PLAY_HEIGHT - PLAYER_RADIUS }
    ∧ (p1_x_bounds (update_player (floor_step (serve_state g)).match_.p1).ent).vel
        = { x := 0, y := 0 }
    ∧ (p1_x_bounds (update_player (floor_step (serve_state g)).match_.p1).ent).rect
        = g.match_.p1.ent.rect := by
  rw [floor_step_p1]
  simp only [serve_state, update_player, update_ent, p1_x_bounds, h, PLAYER_GRAVITY, PLAY_HEIGHT,
    PLAYER_RADIUS, SCREEN_WIDTH, NET_WIDTH, PLAYER_MOVE_FRICT]
  norm_num

theorem serve_p2 (g : game_t) (h : g.match_.p2.ent.acc.y = PLAYER_GRAVITY) :
    (p2_x_bounds (update_player (floor_step (serve_state g)).match_.p2).ent).pos
        = { x := ((3 * SCREEN_WIDTH / 4 : Int) : ℚ) - PLAYER_RADIUS,
            y := PLAY_HEIGHT - PLAYER_RADIUS }
    ∧ (p2_x_bounds (update_player (floor_step (serve_state g)).match_.p2).ent).vel
        = { x := 0, y := 0 }
    ∧ (p2_x_bounds (update_player (floor_step (serve_state g)).match_.p2).ent).rect
        = g.match_.p2.ent.rect := by
  rw [floor_step_p2]
  simp only [serve_state, update_player, update_ent, p2_x_bounds, h, PLAYER_GRAVITY, PLAY_HEIGHT,
    PLAYER_RADIUS, SCREEN_WIDTH, NET_WIDTH, PLAYER_MOVE_FRICT]
  norm_num

theorem update_rect_pos (e : ent_t) : (update_rect e).pos = e.pos := rfl

theorem update_rect_vel (e : ent_t) : (update_rect e).vel = e.vel := rfl

theorem new_match_ball (sqrt : ℚ → ℚ) (net : ent_t) (g : game_t) (hi : initialised g)
    (hnet : net = net_full_main ∨ net = net_full_zero) :
    (new_match sqrt net g).match_.ball.pos
        = { x := (serve_state g).match_.ball.pos.x, y := PLAY_HEIGHT / 2 + BALL_GRAVITY }
      ∧ (new_match sqrt net g).match_.ball.vel = { x := 0, y := BALL_GRAVITY } := by
  obtain ⟨hbw, hbh, hba, h1w, h1h, h1a, h2w, h2h, h2a⟩ := hi
  rw [to_uint16_ball] at hbw hbh
  have hx := serve_ball_x g
  -- the integrated serve ball is strictly inside the side walls
  have hb := serve_ball g hba
  have hin : ball_x_bounds (floor_step (serve_state g)).match_.ball
      = (floor_step (serve_state g)).match_.ball := by
    apply ball_x_bounds_inside <;> rw [hb] <;> rcases hx with hx | hx <;>
      simp only [hx, SCREEN_WIDTH, BALL_RADIUS] <;> norm_num
  -- it is above both players
  have hy : (floor_step (serve_state g)).match_.ball.pos.y
      + ((floor_step (serve_state g)).match_.ball.rect.h : ℚ) ≤ PLAY_HEIGHT - PLAYER_RADIUS := by
    rw [hb]
    simp only [hbh, PLAY_HEIGHT, BALL_GRAVITY, PLAYER_RADIUS]
    norm_num
  have h1 := pb_coll_handler_no_overlap sqrt
    { update_player (floor_step (serve_state g)).match_.p1 with
      ent := p1_x_bounds (update_player (floor_step (serve_state g)).match_.p1).ent }
    (floor_step (serve_state g)).match_.ball
    (aabbox_coll_below _ _ (by rw [(serve_p1 g h1a).1]; exact hy))
  have h2 := pb_coll_handler_no_overlap sqrt
    { update_player (floor_step (serve_state g)).match_.p2 with
      ent := p2_x_bounds (update_player (floor_step (serve_state g)).match_.p2).ent }
    (floor_step (serve_state g)).match_.ball
    (aabbox_coll_below _ _ (by rw [(serve_p2 g h2a).1]; exact hy))
  -- and clear of the net
  have hn : net_step net (floor_step (serve_state g)).match_.ball
      = (floor_step (serve_state g)).match_.ball := by
    apply net_step_no_overlap
    rcases hnet with rfl | rfl
    · apply aabbox_coll_below
      rw [hb]
      simp only [hbh, net_full_main, PLAY_HEIGHT, BALL_GRAVITY, NET_HEIGHT]
      norm_num
    · apply aabbox_coll_above
      rw [hb]
      simp only [net_full_zero, PLAY_HEIGHT, BALL_GRAVITY]
      norm_num
  unfold new_match
  rw [update_match_ball, hin, h1, h2, hn, update_rect_pos, update_rect_vel, hb]
  exact ⟨rfl, rfl⟩

theorem update_match_p2 (sqrt : ℚ → ℚ) (net : ent_t) (g : game_t) :
    (update_match sqrt net g).match_.p2.ent
      = update_rect (pb_coll_handler sqrt
          { update_player (floor_step g).match_.p2 with
            ent := p2_x_bounds (update_player (floor_step g).match_.p2).ent }
          (pb_coll_handler sqrt
            { update_player (floor_step g).match_.p1 with
              ent := p1_x_bounds (update_player (floor_step g).match_.p1).ent }
            (ball_x_bounds (floor_step g).match_.ball)).2).1.ent := rfl

/-- What `pb_coll_handler` never writes: the ball's position, size and acceleration. -/
theorem pb_coll_handler_snd_frame (sqrt : ℚ → ℚ) (p : player_t) (b : ent_t) :
    (pb_coll_handler sqrt p b).2.pos = b.pos ∧ (pb_coll_handler sqrt p b).2.rect = b.rect
      ∧ (pb_coll_handler sqrt p b).2.acc = b.acc := by
  simp only [pb_coll_handler]
  split_ifs <;> exact ⟨rfl, rfl, rfl⟩

theorem net_step_frame (net b : ent_t) :
    (net_step net b).rect = b.rect ∧ (net_step net b).acc = b.acc := by
  simp only [net_step]
  split_ifs <;> exact ⟨rfl, rfl⟩

theorem ball_x_bounds_frame (b : ent_t) :
    (ball_x_bounds b).rect = b.rect ∧ (ball_x_bounds b).acc = b.acc
      ∧ (ball_x_bounds b).pos.y = b.pos.y ∧ (ball_x_bounds b).vel.y = b.vel.y := by
  simp only [ball_x_bounds]
  split_ifs <;> exact ⟨rfl, rfl, rfl, rfl⟩

theorem floor_step_ball_frame (g : game_t) :
    (floor_step g).match_.ball.rect = g.match_.ball.rect
      ∧ (floor_step g).match_.ball.acc = g.match_.ball.acc := by
  simp only [floor_step]
  split_ifs <;> exact ⟨rfl, rfl⟩

theorem update_player_frame (p : player_t) :
    (update_player p).ent.rect = p.ent.rect ∧ (update_player p).ent.acc = p.ent.acc := by
  simp only [update_player]
  split_ifs <;> exact ⟨rfl, rfl⟩

theorem p1_x_bounds_frame (e : ent_t) :
    (p1_x_bounds e).rect = e.rect ∧ (p1_x_bounds e).acc = e.acc := by
  simp only [p1_x_bounds]
  split_ifs <;> exact ⟨rfl, rfl⟩

theorem p2_x_bounds_frame (e : ent_t) :
    (p2_x_bounds e).rect = e.rect ∧ (p2_x_bounds e).acc = e.acc := by
  simp only [p2_x_bounds]
  split_ifs <;> exact ⟨rfl, rfl⟩

/-- `update_match` keeps the sizes and accelerations of the ball and of both players. -/
theorem update_match_frame (sqrt : ℚ → ℚ) (net : ent_t) (g : game_t) :
    ((update_match sqrt net g).match_.ball.rect.w = g.match_.ball.rect.w
      ∧ (update_match sqrt net g).match_.ball.rect.h = g.match_.ball.rect.h
      ∧ (update_match sqrt net g).match_.ball.acc = g.match_.ball.acc)
    ∧ ((update_match sqrt net g).match_.p1.ent.rect.w = g.match_.p1.ent.rect.w
      ∧ (update_match sqrt net g).match_.p1.ent.rect.h = g.match_.p1.ent.rect.h
      ∧ (update_match sqrt net g).match_.p1.ent.acc = g.match_.p1.ent.acc)
    ∧ ((update_match sqrt net g).match_.p2.ent.rect.w = g.match_.p2.ent.rect.w
      ∧ (update_match sqrt net g).match_.p2.ent.rect.h = g.match_.p2.ent.rect.h
      ∧ (update_match sqrt net g).match_.p2.ent.acc = g.match_.p2.ent.acc) := by
  refine ⟨?_, ?_, ?_⟩
  · rw [update_match_ball]
    have hr : ∀ e : ent_t, (update_rect e).rect.w = e.rect.w ∧ (update_rect e).rect.h = e.rect.h
        ∧ (update_rect e).acc = e.acc := fun e => ⟨rfl, rfl, rfl⟩
    rw [(hr _).1, (hr _).2.1, (hr _).2.2, (net_step_frame _ _).1, (net_step_frame _ _).2,
      (pb_coll_handler_snd_frame _ _ _).2.1, (pb_coll_handler_snd_frame _ _ _).2.2,
      (pb_coll_handler_snd_frame _ _ _).2.1, (pb_coll_handler_snd_frame _ _ _).2.2,
      (ball_x_bounds_frame _).1, (ball_x_bounds_frame _).2.1,
      (floor_step_ball_frame g).1, (floor_step_ball_frame g).2]
    exact ⟨rfl, rfl, rfl⟩
  · rw [update_match_p1, pb_coll_handler_fst]
    show (p1_x_bounds _).rect.w = _ ∧ (p1_x_bounds _).rect.h = _ ∧ (p1_x_bounds _).acc = _
    rw [(p1_x_bounds_frame _).1, (p1_x_bounds_frame _).2, (update_player_frame _).1,
      (update_player_frame _).2, floor_step_p1]
    exact ⟨rfl, rfl, rfl⟩
  · rw [update_match_p2, pb_coll_handler_fst]
    show (p2_x_bounds _).rect.w = _ ∧ (p2_x_bounds _).rect.h = _ ∧ (p2_x_bounds _).acc = _
    rw [(p2_x_bounds_frame _).1, (p2_x_bounds_frame _).2, (update_player_frame _).1,
      (update_player_frame _).2, floor_step_p2]
    exact ⟨rfl, rfl, rfl⟩

/-- `update_match` preserves what `new_game` initialised. -/
theorem update_match_initialised (sqrt : ℚ → ℚ) (net : ent_t) (g : game_t)
    (hi : initialised g) : initialised (update_match sqrt net g) := by
  obtain ⟨hb, h1, h2⟩ := update_match_frame sqrt net g
  obtain ⟨hbw, hbh, hba, h1w, h1h, h1a, h2w, h2h, h2a⟩ := hi
  unfold initialised
  rw [hb.1, hb.2.1, hb.2.2, h1.1, h1.2.1, h1.2.2, h2.1, h2.2.1, h2.2.2]
  exact ⟨hbw, hbh, hba, h1w, h1h, h1a, h2w, h2h, h2a⟩

/-- The players as `new_match` leaves them. -/
theorem new_match_players (sqrt : ℚ → ℚ) (net : ent_t) (g : game_t) (hi : initialised g) :
    ((new_match sqrt net g).match_.p1.ent.pos
        = { x := ((SCREEN_WIDTH / 4 : Int) : ℚ) - PLAYER_RADIUS, y := PLAY_HEIGHT - PLAYER_RADIUS }
      ∧ (new_match sqrt net g).match_.p1.ent.vel = { x := 0, y := 0 })
    ∧ ((new_match sqrt net g).match_.p2.ent.pos
        = { x := ((3 * SCREEN_WIDTH / 4 : Int) : ℚ) - PLAYER_RADIUS,
            y := PLAY_HEIGHT - PLAYER_RADIUS }
      ∧ (new_match sqrt net g).match_.p2.ent.vel = { x := 0, y := 0 }) := by
  obtain ⟨-, -, -, -, -, h1a, -, -, h2a⟩ := hi
  unfold new_match
  rw [update_match_p1, update_match_p2, pb_coll_handler_fst, pb_coll_handler_fst,
    update_rect_pos, update_rect_vel, update_rect_pos, update_rect_vel]
  exact ⟨⟨(serve_p1 g h1a).1, (serve_p1 g h1a).2.1⟩, ⟨(serve_p2 g h2a).1, (serve_p2 g h2a).2.1⟩⟩

/-! ## Helper lemmas: the two assigning paths of `pb_coll_handler` -/

/-- The clamp of lines 163-167 puts the speed in `[MIN_BOUNCE_SPEED, MAX_BOUNCE_SPEED]`. -/
theorem bounce_speed_bounds (sqrt : ℚ → ℚ) (p : player_t) (b : ent_t) :
    MIN_BOUNCE_SPEED ≤ bounce_speed sqrt p b ∧ bounce_speed sqrt p b ≤ MAX_BOUNCE_SPEED := by
  simp only [bounce_speed]
  split_ifs with h1 h2
  · simp only [MIN_BOUNCE_SPEED, MAX_BOUNCE_SPEED]; norm_num
  · simp only [MIN_BOUNCE_SPEED, MAX_BOUNCE_SPEED]; norm_num
  · exact ⟨not_lt.mp h1, not_lt.mp h2⟩

/-- The velocity assigned on the flat-side path (`new_vel.y > 0`). -/
theorem pb_coll_handler_flat (sqrt : ℚ → ℚ) (p : player_t) (b : ent_t)
    (ho : aabbox_coll p.ent b ≠ 0) (hy : (delta p b).y > 0) :
    (pb_coll_handler sqrt p b).2.vel
      = if b.pos.x ≥ p.ent.pos.x + 2 * PLAYER_RADIUS - EPSILON then
          { x := bounce_speed sqrt p b, y := 0 }
        else if b.pos.x + 2 * BALL_RADIUS ≤ p.ent.pos.x - EPSILON then
          { x := -bounce_speed sqrt p b, y := 0 }
        else { x := 0, y := bounce_speed sqrt p b } := by
  simp only [pb_coll_handler, if_pos ho, if_pos hy]
  split_ifs <;> rfl

/-- The velocity assigned on the normal-reflection path (`new_vel.y ≤ 0`, test of line 195
passed). -/
theorem pb_coll_handler_normal (sqrt : ℚ → ℚ) (p : player_t) (b : ent_t)
    (ho : aabbox_coll p.ent b ≠ 0) (hy : ¬ (delta p b).y > 0)
    (hn : narrow_tmp p b < narrow_bound) :
    (pb_coll_handler sqrt p b).2.vel
      = { x := bounce_speed sqrt p b * (delta p b).x / (sqrt (norm_sq (delta p b)) + EPSILON)
          y := bounce_speed sqrt p b * (delta p b).y / (sqrt (norm_sq (delta p b)) + EPSILON) } := by
  simp only [pb_coll_handler, if_pos ho, if_neg hy, if_pos hn, norm_sq]

/-! ## C1: scoring -/

/-- C1. Scoring in `update_match`: if the integrated ball has `pos.y > PLAY_HEIGHT -
2*BALL_RADIUS` (floor contact), then exactly one score grows by exactly 1 and the other is
unchanged: `s2` with `winner = 2` when the integrated `pos.x < SCREEN_WIDTH/2 - BALL_RADIUS`,
`s1` with `winner = 1` otherwise; without floor contact `s1`, `s2` and `winner` are all
unchanged. -/
theorem C1_update_match_scoring (sqrt : ℚ → ℚ) (net : ent_t) (g : game_t) :
    ((update_ent g.match_.ball).pos.y > PLAY_HEIGHT - 2 * BALL_RADIUS →
      ((update_ent g.match_.ball).pos.x < ((SCREEN_WIDTH / 2 : Int) : ℚ) - BALL_RADIUS →
        (update_match sqrt net g).s2 = g.s2 + 1 ∧ (update_match sqrt net g).s1 = g.s1
          ∧ (update_match sqrt net g).winner = 2)
      ∧ (¬ (update_ent g.match_.ball).pos.x < ((SCREEN_WIDTH / 2 : Int) : ℚ) - BALL_RADIUS →
        (update_match sqrt net g).s1 = g.s1 + 1 ∧ (update_match sqrt net g).s2 = g.s2
          ∧ (update_match sqrt net g).winner = 1))
    ∧ (¬ (update_ent g.match_.ball).pos.y > PLAY_HEIGHT - 2 * BALL_RADIUS →
        (update_match sqrt net g).s1 = g.s1 ∧ (update_match sqrt net g).s2 = g.s2
          ∧ (update_match sqrt net g).winner = g.winner) := by
  rw [update_match_s1, update_match_s2, update_match_winner, mul_comm 2 BALL_RADIUS]
  unfold floor_step
  refine ⟨fun hy => ⟨fun hx => ?_, fun hx => ?_⟩, fun hy => ?_⟩
  · simp only [hy, hx, if_true]
    exact ⟨trivial, trivial, trivial⟩
  · simp only [hy, hx, if_true, if_false]
    exact ⟨trivial, trivial, trivial⟩
  · simp only [hy, if_false]
    exact ⟨trivial, trivial, trivial⟩

/-- Witness of C1 on three concrete games: floor contact at `pos.x = SCREEN_WIDTH * 0.25`
(point for player 2), floor contact in the right half (point for player 1), and a ball in
mid-air (nothing changes). -/
theorem C1_update_match_scoring_witness :
    ((update_match sqrtQ net_full_main game_floor_left).s2 = 5
      ∧ (update_match sqrtQ net_full_main game_floor_left).s1 = 3
      ∧ (update_match sqrtQ net_full_main game_floor_left).winner = 2)
    ∧ ((update_match sqrtQ net_full_main game_floor_right).s1 = 4
      ∧ (update_match sqrtQ net_full_main game_floor_right).s2 = 4
      ∧ (update_match sqrtQ net_full_main game_floor_right).winner = 1)
    ∧ ((update_match sqrtQ net_full_main game_mid_air).s1 = 3
      ∧ (update_match sqrtQ net_full_main game_mid_air).s2 = 4
      ∧ (update_match sqrtQ net_full_main game_mid_air).winner = 0) :=
  ⟨((C1_update_match_scoring sqrtQ net_full_main game_floor_left).1 (by decide!)).1 (by decide!),
   ((C1_update_match_scoring sqrtQ net_full_main game_floor_right).1 (by decide!)).2 (by decide!),
   (C1_update_match_scoring sqrtQ net_full_main game_mid_air).2 (by decide!)⟩

/-! ## C2: the point-end step -/

/-- C2. Game-winner transition: in a game initialised by `new_game` in which a point has
just ended (`winner ≠ 0`), the point-end step of the main loop is `new_game` when
`s1 ≥ MAX_SCORE` or `s2 ≥ MAX_SCORE`, and then both scores are 0; otherwise it is
`new_match`, and then both scores are unchanged. -/
theorem C2_point_end_transition (sqrt : ℚ → ℚ) (net : ent_t) (g : game_t)
    (hw : g.winner ≠ 0) (hi : initialised g) :
    ((g.s1 ≥ MAX_SCORE ∨ g.s2 ≥ MAX_SCORE) →
        point_end sqrt net g = new_game sqrt net g
          ∧ (point_end sqrt net g).s1 = 0 ∧ (point_end sqrt net g).s2 = 0)
    ∧ (¬ (g.s1 ≥ MAX_SCORE ∨ g.s2 ≥ MAX_SCORE) →
        point_end sqrt net g = new_match sqrt net g
          ∧ (point_end sqrt net g).s1 = g.s1 ∧ (point_end sqrt net g).s2 = g.s2) := by
  have hacc : g.match_.ball.acc.y = BALL_GRAVITY := by
    rw [hi.2.2.1]
  constructor
  · intro hs
    have hp : point_end sqrt net g = new_game sqrt net g := by
      unfold point_end
      rw [if_pos hw, if_pos hs]
    rw [hp]
    exact ⟨rfl, (new_game_scores sqrt net g).1, (new_game_scores sqrt net g).2.1⟩
  · intro hs
    have hp : point_end sqrt net g = new_match sqrt net g := by
      unfold point_end
      rw [if_pos hw, if_neg hs]
    rw [hp]
    exact ⟨rfl, (new_match_scores sqrt net g hacc).1, (new_match_scores sqrt net g hacc).2.1⟩

/-- Witness of C2: a finished game (`s1 = 6`) is restarted with scores 0, an unfinished
one (`s1 = 3`, `s2 = 5`) keeps its scores. -/
theorem C2_point_end_transition_witness :
    (point_end sqrtQ net_full_main game_won = new_game sqrtQ net_full_main game_won
      ∧ (point_end sqrtQ net_full_main game_won).s1 = 0
      ∧ (point_end sqrtQ net_full_main game_won).s2 = 0)
    ∧ (point_end sqrtQ net_full_main game_point = new_match sqrtQ net_full_main game_point
      ∧ (point_end sqrtQ net_full_main game_point).s1 = game_point.s1
      ∧ (point_end sqrtQ net_full_main game_point).s2 = game_point.s2) :=
  ⟨(C2_point_end_transition sqrtQ net_full_main game_won (by decide!) (by decide!)).1 (by decide!),
   (C2_point_end_transition sqrtQ net_full_main game_point (by decide!) (by decide!)).2
     (by decide!)⟩

/-! ## C3: where the ball is served -/

/-- Counterexample to C3 as stated: in an initialised game the ball lands in the right half,
`update_match` awards the point to player 1 (`winner = 1`, `s1` incremented), and
`new_match` then serves the ball with centre `SCREEN_WIDTH/4`, in player 1's own (left)
half, not at `3*SCREEN_WIDTH/4`. -/
theorem C3_serve_side_counterexample :
    initialised game_floor_right
    ∧ (update_match sqrtQ net_full_main game_floor_right).winner = 1
    ∧ (update_match sqrtQ net_full_main game_floor_right).s1 = game_floor_right.s1 + 1
    ∧ (new_match sqrtQ net_full_main
          (update_match sqrtQ net_full_main game_floor_right)).match_.ball.pos.x + BALL_RADIUS
        ≠ ((3 * SCREEN_WIDTH / 4 : Int) : ℚ) := by
  decide!

/-- C3 (amended). Serve side: after `update_match` has awarded the point to side `k` in a
game initialised by `new_game` (with `net_full` as in `main`, or still zero), `new_match`
centres the ball horizontally on the half of the side that won the point: ball centre
`x = SCREEN_WIDTH/4` when `k = 1` and `x = 3*SCREEN_WIDTH/4` when `k = 2`. -/
theorem C3_serve_side (sqrt : ℚ → ℚ) (net : ent_t) (g0 : game_t) (hi : initialised g0)
    (hnet : net = net_full_main ∨ net = net_full_zero) :
    ((update_match sqrt net g0).winner = 1 ∧ (update_match sqrt net g0).s1 = g0.s1 + 1 →
      (new_match sqrt net (update_match sqrt net g0)).match_.ball.pos.x + BALL_RADIUS
        = ((SCREEN_WIDTH / 4 : Int) : ℚ))
    ∧ ((update_match sqrt net g0).winner = 2 ∧ (update_match sqrt net g0).s2 = g0.s2 + 1 →
      (new_match sqrt net (update_match sqrt net g0)).match_.ball.pos.x + BALL_RADIUS
        = ((3 * SCREEN_WIDTH / 4 : Int) : ℚ)) := by
  have hb := (new_match_ball sqrt net _ (update_match_initialised sqrt net g0 hi) hnet).1
  constructor
  · rintro ⟨hw, -⟩
    rw [hb]
    simp only [serve_state, hw, if_true]
    ring
  · rintro ⟨hw, -⟩
    rw [hb]
    have : ¬ (update_match sqrt net g0).winner = 1 := by rw [hw]; decide
    simp only [serve_state, this, if_false]
    ring

/-- Witness of C3 (amended) on the two floor-contact games. -/
theorem C3_serve_side_witness :
    (new_match sqrtQ net_full_main
        (update_match sqrtQ net_full_main game_floor_right)).match_.ball.pos.x + BALL_RADIUS
      = ((SCREEN_WIDTH / 4 : Int) : ℚ)
    ∧ (new_match sqrtQ net_full_main
        (update_match sqrtQ net_full_main game_floor_left)).match_.ball.pos.x + BALL_RADIUS
      = ((3 * SCREEN_WIDTH / 4 : Int) : ℚ) :=
  ⟨(C3_serve_side sqrtQ net_full_main game_floor_right (by decide!) (Or.inl rfl)).1 (by decide!),
   (C3_serve_side sqrtQ net_full_main game_floor_left (by decide!) (Or.inl rfl)).2 (by decide!)⟩

/-! ## C4: the state left by `new_match` -/

/-- Counterexample to C4 as stated: `new_match` ends with one `update_match` tick, so the
ball it leaves is not at `PLAY_HEIGHT/2` and its velocity is not zero. -/
theorem C4_new_match_state_counterexample :
    initialised game_point
    ∧ (new_match sqrtQ net_full_main game_point).match_.ball.pos.y ≠ PLAY_HEIGHT / 2
    ∧ (new_match sqrtQ net_full_main game_point).match_.ball.vel ≠ { x := 0, y := 0 } := by
  decide!

/-- C4 (amended). Point re-initialisation: in a game initialised by `new_game` (with
`net_full` as in `main`, or still zero), `new_match` leaves both players at floor level
(`pos.y = PLAY_HEIGHT - PLAYER_RADIUS`) with zero velocity and box centre
`x = SCREEN_WIDTH/4` resp. `3*SCREEN_WIDTH/4`, and the ball one integration step below
mid-court height: `pos.y = PLAY_HEIGHT/2 + BALL_GRAVITY`, velocity `(0, BALL_GRAVITY)`. -/
theorem C4_new_match_state (sqrt : ℚ → ℚ) (net : ent_t) (g : game_t) (hi : initialised g)
    (hnet : net = net_full_main ∨ net = net_full_zero) :
    ((new_match sqrt net g).match_.p1.ent.pos.y = PLAY_HEIGHT - PLAYER_RADIUS
      ∧ (new_match sqrt net g).match_.p1.ent.vel = { x := 0, y := 0 }
      ∧ (new_match sqrt net g).match_.p1.ent.pos.x + PLAYER_RADIUS = ((SCREEN_WIDTH / 4 : Int) : ℚ))
    ∧ ((new_match sqrt net g).match_.p2.ent.pos.y = PLAY_HEIGHT - PLAYER_RADIUS
      ∧ (new_match sqrt net g).match_.p2.ent.vel = { x := 0, y := 0 }
      ∧ (new_match sqrt net g).match_.p2.ent.pos.x + PLAYER_RADIUS
          = ((3 * SCREEN_WIDTH / 4 : Int) : ℚ))
    ∧ ((new_match sqrt net g).match_.ball.pos.y = PLAY_HEIGHT / 2 + BALL_GRAVITY
      ∧ (new_match sqrt net g).match_.ball.vel = { x := 0, y := BALL_GRAVITY }) := by
  obtain ⟨⟨h1p, h1v⟩, ⟨h2p, h2v⟩⟩ := new_match_players sqrt net g hi
  obtain ⟨hbp, hbv⟩ := new_match_ball sqrt net g hi hnet
  rw [h1p, h1v, h2p, h2v, hbp, hbv]
  refine ⟨⟨rfl, rfl, ?_⟩, ⟨rfl, rfl, ?_⟩, rfl, rfl⟩ <;> simp

/-- Witness of C4 (amended) on a game in which a point has just ended. -/
theorem C4_new_match_state_witness :
    (new_match sqrtQ net_full_main game_point).match_.p1.ent.pos.y = PLAY_HEIGHT - PLAYER_RADIUS
    ∧ (new_match sqrtQ net_full_main game_point).match_.ball.pos.y = PLAY_HEIGHT / 2 + BALL_GRAVITY
    ∧ (new_match sqrtQ net_full_main game_point).match_.ball.vel = { x := 0, y := BALL_GRAVITY } :=
  ⟨(C4_new_match_state sqrtQ net_full_main game_point (by decide!) (Or.inl rfl)).1.1,
   (C4_new_match_state sqrtQ net_full_main game_point (by decide!) (Or.inl rfl)).2.2.1,
   (C4_new_match_state sqrtQ net_full_main game_point (by decide!) (Or.inl rfl)).2.2.2⟩

/-! ## C5: the speed of the ball after an impact -/

/-- Counterexample to C5 as stated: a ball at rest directly above the centre of a resting
player (all three square roots taken are exact) is assigned a velocity of norm
`3 * 40 / 40.001 < MIN_BOUNCE_SPEED`, because the direction is divided by
`|delta| + EPSILON`. -/
theorem C5_bounce_speed_clamp_counterexample :
    pb_assigns player_rest ball_on_top
    ∧ sqrtQ (norm_sq ball_on_top.vel) * sqrtQ (norm_sq ball_on_top.vel) = norm_sq ball_on_top.vel
    ∧ sqrtQ (norm_sq player_rest.ent.vel) * sqrtQ (norm_sq player_rest.ent.vel)
        = norm_sq player_rest.ent.vel
    ∧ sqrtQ (norm_sq (delta player_rest ball_on_top))
          * sqrtQ (norm_sq (delta player_rest ball_on_top))
        = norm_sq (delta player_rest ball_on_top)
    ∧ norm_sq (pb_coll_handler sqrtQ player_rest ball_on_top).2.vel
        < MIN_BOUNCE_SPEED * MIN_BOUNCE_SPEED := by
  decide!

/-- C5 (amended). Bounce speed: whenever `pb_coll_handler` assigns a new ball velocity,
`speed` lies in `[MIN_BOUNCE_SPEED, MAX_BOUNCE_SPEED]`; on the flat-side path
(`delta.y > 0`) the norm of the new velocity is exactly `speed`; and on every path the
norm is at most `speed`, hence at most `MAX_BOUNCE_SPEED`, provided `sqrt` is non-negative
at `|delta|^2` and does not underestimate `|delta|` by more than `EPSILON` (true of the
exact square root).  No lower bound holds on the normal-reflection path.  Norms are
compared through their squares. -/
theorem C5_bounce_speed_clamp (sqrt : ℚ → ℚ) (p : player_t) (b : ent_t)
    (ha : pb_assigns p b) :
    (MIN_BOUNCE_SPEED ≤ bounce_speed sqrt p b ∧ bounce_speed sqrt p b ≤ MAX_BOUNCE_SPEED)
    ∧ ((delta p b).y > 0 →
        norm_sq (pb_coll_handler sqrt p b).2.vel = bounce_speed sqrt p b * bounce_speed sqrt p b)
    ∧ (0 ≤ sqrt (norm_sq (delta p b)) →
        norm_sq (delta p b) ≤ (sqrt (norm_sq (delta p b)) + EPSILON) ^ 2 →
        norm_sq (pb_coll_handler sqrt p b).2.vel ≤ bounce_speed sqrt p b * bounce_speed sqrt p b
        ∧ norm_sq (pb_coll_handler sqrt p b).2.vel ≤ MAX_BOUNCE_SPEED * MAX_BOUNCE_SPEED) := by
  obtain ⟨ho, hb⟩ := ha
  have hsp := bounce_speed_bounds sqrt p b
  have hmin : (0 : ℚ) ≤ bounce_speed sqrt p b := by
    have : (0 : ℚ) ≤ MIN_BOUNCE_SPEED := by simp only [MIN_BOUNCE_SPEED]; norm_num
    linarith [hsp.1]
  have hflat : (delta p b).y > 0 →
      norm_sq (pb_coll_handler sqrt p b).2.vel
        = bounce_speed sqrt p b * bounce_speed sqrt p b := by
    intro hy
    rw [pb_coll_handler_flat sqrt p b ho hy]
    split_ifs <;> simp only [norm_sq] <;> ring
  refine ⟨hsp, hflat, ?_⟩
  intro h0 hD
  have hle : norm_sq (pb_coll_handler sqrt p b).2.vel
      ≤ bounce_speed sqrt p b * bounce_speed sqrt p b := by
    by_cases hy : (delta p b).y > 0
    · exact (hflat hy).le
    · have hn : narrow_tmp p b < narrow_bound := hb.resolve_left hy
      rw [pb_coll_handler_normal sqrt p b ho hy hn]
      have ht : 0 < sqrt (norm_sq (delta p b)) + EPSILON := by
        have : (0 : ℚ) < EPSILON := by simp only [EPSILON]; norm_num
        linarith
      have hD2 : norm_sq (delta p b) / (sqrt (norm_sq (delta p b)) + EPSILON) ^ 2 ≤ 1 :=
        (div_le_one (pow_pos ht 2)).mpr hD
      have hkey : norm_sq
          { x := bounce_speed sqrt p b * (delta p b).x / (sqrt (norm_sq (delta p b)) + EPSILON)
            y := bounce_speed sqrt p b * (delta p b).y / (sqrt (norm_sq (delta p b)) + EPSILON) }
          = bounce_speed sqrt p b * bounce_speed sqrt p b
            * (norm_sq (delta p b) / (sqrt (norm_sq (delta p b)) + EPSILON) ^ 2) := by
        have hne : sqrt (norm_sq (delta p b)) + EPSILON ≠ 0 := ne_of_gt ht
        generalize sqrt (norm_sq (delta p b)) + EPSILON = t at hne
        simp only [norm_sq]
        field_simp
        ring
      rw [hkey]
      calc bounce_speed sqrt p b * bounce_speed sqrt p b
            * (norm_sq (delta p b) / (sqrt (norm_sq (delta p b)) + EPSILON) ^ 2)
          ≤ bounce_speed sqrt p b * bounce_speed sqrt p b * 1 :=
            mul_le_mul_of_nonneg_left hD2 (mul_nonneg hmin hmin)
        _ = bounce_speed sqrt p b * bounce_speed sqrt p b := mul_one _
  exact ⟨hle, hle.trans (mul_le_mul hsp.2 hsp.2 hmin (hmin.trans hsp.2))⟩

/-- Witness of C5 (amended): a flat-side hit and a normal reflection, with `sqrtQ`. -/
theorem C5_bounce_speed_clamp_witness :
    norm_sq (pb_coll_handler sqrtQ player_jump ball_flat).2.vel
      = bounce_speed sqrtQ player_jump ball_flat * bounce_speed sqrtQ player_jump ball_flat
    ∧ norm_sq (pb_coll_handler sqrtQ player_rest ball_on_top).2.vel
      ≤ MAX_BOUNCE_SPEED * MAX_BOUNCE_SPEED :=
  ⟨(C5_bounce_speed_clamp sqrtQ player_jump ball_flat (by decide!)).2.1 (by decide!),
   ((C5_bounce_speed_clamp sqrtQ player_rest ball_on_top (by decide!)).2.2
      (by decide!) (by decide!)).2⟩

/-! ## C6: what `pb_coll_handler` leaves unchanged -/

/-- C6. Impact resolver frame: when `aabbox_coll(player.ent, ball) = 0`, `pb_coll_handler`
leaves the ball and the player entirely unchanged; and on every input it changes nothing
except `ball.vel`: the player record and the ball's position, size and acceleration are
unchanged. -/
theorem C6_pb_coll_handler_frame (sqrt : ℚ → ℚ) (p : player_t) (b : ent_t) :
    (aabbox_coll p.ent b = 0 → pb_coll_handler sqrt p b = (p, b))
    ∧ ((pb_coll_handler sqrt p b).1 = p
      ∧ (pb_coll_handler sqrt p b).2.pos = b.pos
      ∧ (pb_coll_handler sqrt p b).2.rect = b.rect
      ∧ (pb_coll_handler sqrt p b).2.acc = b.acc) :=
  ⟨pb_coll_handler_no_overlap sqrt p b,
   pb_coll_handler_fst sqrt p b, pb_coll_handler_snd_frame sqrt p b⟩

/-- Witness of C6: a ball far from the player. -/
theorem C6_pb_coll_handler_frame_witness :
    aabbox_coll player_rest.ent ball_far = 0
    ∧ pb_coll_handler sqrtQ player_rest ball_far = (player_rest, ball_far) :=
  ⟨by decide!, (C6_pb_coll_handler_frame sqrtQ player_rest ball_far).1 (by decide!)⟩

/-! ## C7: the bounding-box predicate -/

/-- C7. AABB predicate: `aabbox_coll e1 e2 = 1` if and only if none of the four separating
conditions holds (e1 bottom `≤` e2 top, e1 top `≥` e2 bottom, e1 right `≤` e2 left,
e1 left `≥` e2 right); the result is always `0` or `1`; and two boxes that exactly share
an edge coordinate report `0`. -/
theorem C7_aabbox_coll_iff (e1 e2 : ent_t) :
    (aabbox_coll e1 e2 = 1 ↔
        ¬ (e1.pos.y + (e1.rect.h : ℚ) ≤ e2.pos.y) ∧ ¬ (e1.pos.y ≥ e2.pos.y + (e2.rect.h : ℚ))
        ∧ ¬ (e1.pos.x + (e1.rect.w : ℚ) ≤ e2.pos.x) ∧ ¬ (e1.pos.x ≥ e2.pos.x + (e2.rect.w : ℚ)))
    ∧ (aabbox_coll e1 e2 = 0 ∨ aabbox_coll e1 e2 = 1)
    ∧ (e1.pos.x + (e1.rect.w : ℚ) = e2.pos.x → aabbox_coll e1 e2 = 0)
    ∧ (e1.pos.x = e2.pos.x + (e2.rect.w : ℚ) → aabbox_coll e1 e2 = 0)
    ∧ (e1.pos.y + (e1.rect.h : ℚ) = e2.pos.y → aabbox_coll e1 e2 = 0)
    ∧ (e1.pos.y = e2.pos.y + (e2.rect.h : ℚ) → aabbox_coll e1 e2 = 0) := by
  unfold aabbox_coll
  refine ⟨?_, ?_, ?_, ?_, ?_, ?_⟩
  · split_ifs <;> simp [*]
  · split_ifs <;> simp
  · intro h
    split_ifs with h1 h2 h3 h4 <;> first | rfl | exact absurd h.le h3
  · intro h
    split_ifs with h1 h2 h3 h4 <;> first | rfl | exact absurd h.ge h4
  · intro h
    split_ifs with h1 h2 h3 h4 <;> first | rfl | exact absurd h.le h1
  · intro h
    split_ifs with h1 h2 h3 h4 <;> first | rfl | exact absurd h.ge h2

/-- Witness of C7: `box_left`'s right edge is `box_touching`'s left edge. -/
theorem C7_aabbox_coll_iff_witness :
    box_left.pos.x + (box_left.rect.w : ℚ) = box_touching.pos.x
    ∧ aabbox_coll box_left box_touching = 0 :=
  ⟨by decide!, (C7_aabbox_coll_iff box_left box_touching).2.2.1 (by decide!)⟩

/-! ## C8: bouncing off the side of the net -/

/-- C8. Net side bounce: for a ball that overlaps the net box with its bottom more than
`NET_EPSILON` below the net's top, the net step of `update_match` negates `vel.x` and
leaves `pos.y` and `vel.y` unchanged; when `vel.x > 0` it sets
`pos.x = SCREEN_WIDTH/2 - NET_WIDTH/2 - 2*BALL_RADIUS`, otherwise
`pos.x = SCREEN_WIDTH/2 + NET_WIDTH/2`; for the net of `main` these are
`net.left - 2*BALL_RADIUS` and the net's right edge. -/
theorem C8_net_side_bounce (net b : ent_t) (ho : aabbox_coll net b = 1)
    (hs : b.pos.y + 2 * BALL_RADIUS - NET_EPSILON > net.pos.y) :
    (net_step net b).vel.x = -b.vel.x
    ∧ (net_step net b).pos.y = b.pos.y
    ∧ (net_step net b).vel.y = b.vel.y
    ∧ (b.vel.x > 0 →
        (net_step net b).pos.x = ((SCREEN_WIDTH / 2 : Int) : ℚ) - NET_WIDTH / 2 - 2 * BALL_RADIUS)
    ∧ (¬ b.vel.x > 0 →
        (net_step net b).pos.x = ((SCREEN_WIDTH / 2 : Int) : ℚ) + NET_WIDTH / 2)
    ∧ net_full_main.pos.x - 2 * BALL_RADIUS
        = ((SCREEN_WIDTH / 2 : Int) : ℚ) - NET_WIDTH / 2 - 2 * BALL_RADIUS
    ∧ net_full_main.pos.x + (net_full_main.rect.w : ℚ)
        = ((SCREEN_WIDTH / 2 : Int) : ℚ) + NET_WIDTH / 2 := by
  have h0 : aabbox_coll net b ≠ 0 := by rw [ho]; decide
  simp only [net_step, if_pos h0, if_pos hs]
  refine ⟨?_, ?_, ?_, ?_, ?_, rfl, ?_⟩
  · split_ifs <;> simp
  · split_ifs <;> rfl
  · split_ifs <;> rfl
  · intro hv
    rw [if_pos hv]
  · intro hv
    rw [if_neg hv]
  · have hw : net_full_main.rect.w = 8 := to_uint16_net_w
    rw [hw]
    simp only [net_full_main, NET_WIDTH]
    ring

/-- Witness of C8: `vel.x = +5` becomes `-5` and the ball is pushed to
`net.left - 2*BALL_RADIUS`. -/
theorem C8_net_side_bounce_witness :
    (net_step net_full_main ball_at_net).vel.x = -5
    ∧ (net_step net_full_main ball_at_net).pos.x = net_full_main.pos.x - 2 * BALL_RADIUS := by
  have h := C8_net_side_bounce net_full_main ball_at_net (by decide!) (by decide!)
  exact ⟨h.1, (h.2.2.2.1 (by decide!)).trans h.2.2.2.2.2.1.symm⟩

/-! ## C9: reflection at the left wall -/

/-- Counterexample to C9 as stated: for the ball at `pos.x = 0` with `vel.x = -5`, the
first x-bounds step gives `pos.x = 0`, `vel.x = 5`; the second one is not a no-op, it
gives `vel.x = -5`. -/
theorem C9_wall_reflection_counterexample :
    ball_at_wall.pos.x ≤ 0 ∧ ball_at_wall.vel.x < 0
    ∧ (ball_x_bounds ball_at_wall).pos.x = 0 ∧ (ball_x_bounds ball_at_wall).vel.x = 5
    ∧ (ball_x_bounds (ball_x_bounds ball_at_wall)).vel.x = -5
    ∧ ball_x_bounds (ball_x_bounds ball_at_wall) ≠ ball_x_bounds ball_at_wall := by
  decide!

/-- C9 (amended). Wall reflection: for a ball with `pos.x ≤ 0` and `vel.x < 0`, one ball
x-bounds step yields `pos.x = 0` and `vel.x` negated, hence positive; a second step on that
result keeps `pos.x = 0` and negates `vel.x` again (the guard `pos.x <= 0` holds at `0`),
giving back the original `vel.x`.  The step is a no-op on every ball strictly inside the
walls, `0 < pos.x < SCREEN_WIDTH - 2*BALL_RADIUS`. -/
theorem C9_wall_reflection (b : ent_t) :
    (b.pos.x ≤ 0 → b.vel.x < 0 →
        (ball_x_bounds b).pos.x = 0 ∧ (ball_x_bounds b).vel.x = -b.vel.x
        ∧ 0 < (ball_x_bounds b).vel.x
        ∧ (ball_x_bounds (ball_x_bounds b)).pos.x = 0
        ∧ (ball_x_bounds (ball_x_bounds b)).vel.x = b.vel.x)
    ∧ (0 < b.pos.x → b.pos.x < (SCREEN_WIDTH : ℚ) - 2 * BALL_RADIUS → ball_x_bounds b = b) := by
  constructor
  · intro hp hv
    have h1 : ball_x_bounds b
        = ⟨⟨0, b.pos.y⟩, b.rect, b.acc, ⟨b.vel.x * -1, b.vel.y⟩⟩ := by
      unfold ball_x_bounds
      rw [if_pos hp]
    have h2 : ball_x_bounds ⟨⟨0, b.pos.y⟩, b.rect, b.acc, ⟨b.vel.x * -1, b.vel.y⟩⟩
        = ⟨⟨0, b.pos.y⟩, b.rect, b.acc, ⟨b.vel.x * -1 * -1, b.vel.y⟩⟩ := by
      unfold ball_x_bounds
      rw [if_pos (le_refl (0 : ℚ))]
    rw [h1, h2]
    refine ⟨rfl, ?_, ?_, rfl, ?_⟩
    · show b.vel.x * -1 = -b.vel.x
      ring
    · show 0 < b.vel.x * -1
      linarith
    · show b.vel.x * -1 * -1 = b.vel.x
      ring
  · exact ball_x_bounds_inside b

/-- Witness of C9 (amended). -/
theorem C9_wall_reflection_witness :
    ((ball_x_bounds ball_at_wall).pos.x = 0
      ∧ (ball_x_bounds ball_at_wall).vel.x = -ball_at_wall.vel.x
      ∧ 0 < (ball_x_bounds ball_at_wall).vel.x
      ∧ (ball_x_bounds (ball_x_bounds ball_at_wall)).pos.x = 0
      ∧ (ball_x_bounds (ball_x_bounds ball_at_wall)).vel.x = ball_at_wall.vel.x)
    ∧ ball_x_bounds ball_inside = ball_inside :=
  ⟨(C9_wall_reflection ball_at_wall).1 (by decide!) (by decide!),
   (C9_wall_reflection ball_inside).2 (by decide!) (by decide!)⟩

/-! ## C10: a ball hit from directly above the player's centre -/

/-- Counterexample to C10 as stated: the player is centred at `(100, 300)`, the ball is at
rest directly above its centre with overlapping boxes, `delta.y = -40 ≤ 0` and centre
distance `40 < BALL_RADIUS + PLAYER_RADIUS` (all square roots taken are exact); the
velocity assigned is not `(0, +speed)`: its vertical component is negative. -/
theorem C10_top_hit_counterexample :
    aabbox_coll player_rest.ent ball_on_top = 1
    ∧ player_rest.ent.pos.x + PLAYER_RADIUS = 100 ∧ player_rest.ent.pos.y + PLAYER_RADIUS = 300
    ∧ ball_on_top.pos.x + BALL_RADIUS = player_rest.ent.pos.x + PLAYER_RADIUS
    ∧ (delta player_rest ball_on_top).y ≤ 0
    ∧ norm_sq (delta player_rest ball_on_top)
        < (BALL_RADIUS + PLAYER_RADIUS) * (BALL_RADIUS + PLAYER_RADIUS)
    ∧ sqrtQ (norm_sq ball_on_top.vel) * sqrtQ (norm_sq ball_on_top.vel) = norm_sq ball_on_top.vel
    ∧ sqrtQ (norm_sq player_rest.ent.vel) * sqrtQ (norm_sq player_rest.ent.vel)
        = norm_sq player_rest.ent.vel
    ∧ sqrtQ (norm_sq (delta player_rest ball_on_top))
          * sqrtQ (norm_sq (delta player_rest ball_on_top))
        = norm_sq (delta player_rest ball_on_top)
    ∧ (pb_coll_handler sqrtQ player_rest ball_on_top).2.vel
        ≠ { x := 0, y := bounce_speed sqrtQ player_rest ball_on_top }
    ∧ (pb_coll_handler sqrtQ player_rest ball_on_top).2.vel.y < 0 := by
  decide!

/-- C10 (amended). Top hit: for a player and ball whose boxes overlap, with the ball centre
directly above the player centre (equal centre x) and `delta.y ≤ 0`, whenever
`pb_coll_handler` assigns a new ball velocity, that velocity has no horizontal component
and its vertical component is `speed * delta.y / (sqrt(delta.y^2) + EPSILON)`, with
`speed` the clamped `|ball.vel| + |player.vel| + EPSILON`.  It is `≤ 0` (directed upwards,
away from the player) when `sqrt` is non-negative there, and with the exact square root it
equals `speed * delta.y / (|delta.y| + EPSILON)`, of magnitude strictly below `speed`. -/
theorem C10_top_hit (sqrt : ℚ → ℚ) (p : player_t) (b : ent_t)
    (ho : aabbox_coll p.ent b = 1)
    (hx : b.pos.x + BALL_RADIUS = p.ent.pos.x + PLAYER_RADIUS)
    (hy : (delta p b).y ≤ 0)
    (ha : pb_assigns p b) :
    (pb_coll_handler sqrt p b).2.vel.x = 0
    ∧ (pb_coll_handler sqrt p b).2.vel.y
        = bounce_speed sqrt p b * (delta p b).y
            / (sqrt ((delta p b).y * (delta p b).y) + EPSILON)
    ∧ (0 ≤ sqrt ((delta p b).y * (delta p b).y) → (pb_coll_handler sqrt p b).2.vel.y ≤ 0)
    ∧ (sqrt ((delta p b).y * (delta p b).y) = |(delta p b).y| →
        (pb_coll_handler sqrt p b).2.vel.y
            = bounce_speed sqrt p b * (delta p b).y / (|(delta p b).y| + EPSILON)
        ∧ -bounce_speed sqrt p b < (pb_coll_handler sqrt p b).2.vel.y) := by
  have h0 : aabbox_coll p.ent b ≠ 0 := by rw [ho]; decide
  have hny : ¬ (delta p b).y > 0 := not_lt.mpr hy
  have hn : narrow_tmp p b < narrow_bound := ha.2.resolve_left hny
  have hdx : (delta p b).x = 0 := by
    simp only [delta]
    linarith
  have hns : norm_sq (delta p b) = (delta p b).y * (delta p b).y := by
    simp only [norm_sq, hdx]
    ring
  have heps : (0 : ℚ) < EPSILON := by simp only [EPSILON]; norm_num
  have hsp : (0 : ℚ) < bounce_speed sqrt p b := by
    have : (0 : ℚ) < MIN_BOUNCE_SPEED := by simp only [MIN_BOUNCE_SPEED]; norm_num
    linarith [(bounce_speed_bounds sqrt p b).1]
  rw [pb_coll_handler_normal sqrt p b h0 hny hn, hns, hdx]
  refine ⟨by simp, rfl, ?_, ?_⟩
  · intro hs
    show bounce_speed sqrt p b * (delta p b).y
        / (sqrt ((delta p b).y * (delta p b).y) + EPSILON) ≤ 0
    apply div_nonpos_of_nonpos_of_nonneg
    · exact mul_nonpos_of_nonneg_of_nonpos hsp.le hy
    · linarith
  · intro hs
    show bounce_speed sqrt p b * (delta p b).y
          / (sqrt ((delta p b).y * (delta p b).y) + EPSILON)
        = bounce_speed sqrt p b * (delta p b).y / (|(delta p b).y| + EPSILON)
      ∧ -bounce_speed sqrt p b < bounce_speed sqrt p b * (delta p b).y
          / (sqrt ((delta p b).y * (delta p b).y) + EPSILON)
    rw [hs, abs_of_nonpos hy]
    refine ⟨rfl, ?_⟩
    have ht : 0 < -(delta p b).y + EPSILON := by linarith
    rw [lt_div_iff₀ ht]
    nlinarith

/-- Witness of C10 (amended) on the ball resting above `player_rest`. -/
theorem C10_top_hit_witness :
    (pb_coll_handler sqrtQ player_rest ball_on_top).2.vel.x = 0
    ∧ (pb_coll_handler sqrtQ player_rest ball_on_top).2.vel.y ≤ 0
    ∧ -bounce_speed sqrtQ player_rest ball_on_top
        < (pb_coll_handler sqrtQ player_rest ball_on_top).2.vel.y :=
  ⟨(C10_top_hit sqrtQ player_rest ball_on_top (by decide!) (by decide!) (by decide!)
      (by decide!)).1,
   (C10_top_hit sqrtQ player_rest ball_on_top (by decide!) (by decide!) (by decide!)
      (by decide!)).2.2.1 (by decide!),
   ((C10_top_hit sqrtQ player_rest ball_on_top (by decide!) (by decide!) (by decide!)
      (by decide!)).2.2.2 (by decide!)).2⟩

/-! ## C11: the integration step -/

/-- C11. Integration step: `update_ent` yields velocity `v1 = v0 + a` and position
`p1 = p0 + v1` (the already-updated velocity), componentwise, and leaves the acceleration
and the rectangle (in particular `rect.w`, `rect.h`) unchanged. -/
theorem C11_update_ent_integration (e : ent_t) :
    (update_ent e).vel.x = e.vel.x + e.acc.x
    ∧ (update_ent e).vel.y = e.vel.y + e.acc.y
    ∧ (update_ent e).pos.x = e.pos.x + (update_ent e).vel.x
    ∧ (update_ent e).pos.y = e.pos.y + (update_ent e).vel.y
    ∧ (update_ent e).acc = e.acc
    ∧ (update_ent e).rect = e.rect :=
  ⟨rfl, rfl, rfl, rfl, rfl, rfl⟩

/-! ## C12: the players stay in their halves -/

/-- After `update_player` the player is not below floor level. -/
theorem update_player_floor (p : player_t) :
    (update_player p).ent.pos.y ≤ PLAY_HEIGHT - PLAYER_RADIUS := by
  simp only [update_player]
  split_ifs with h
  · exact le_refl _
  · exact not_lt.mp h

/-- The clamp of player 1 puts `pos.x` in its interval and keeps `pos.y`. -/
theorem p1_x_bounds_range (e : ent_t) :
    0 ≤ (p1_x_bounds e).pos.x
    ∧ (p1_x_bounds e).pos.x ≤ ((SCREEN_WIDTH / 2 : Int) : ℚ) - NET_WIDTH / 2 - 2 * PLAYER_RADIUS - 2
    ∧ (p1_x_bounds e).pos.y = e.pos.y := by
  simp only [p1_x_bounds]
  split_ifs with h1 h2
  · refine ⟨le_refl _, ?_, rfl⟩
    simp only [SCREEN_WIDTH, NET_WIDTH, PLAYER_RADIUS]
    norm_num
  · refine ⟨?_, le_refl _, rfl⟩
    simp only [SCREEN_WIDTH, NET_WIDTH, PLAYER_RADIUS]
    norm_num
  · exact ⟨not_lt.mp h1, not_lt.mp h2, rfl⟩

/-- The clamp of player 2 puts `pos.x` in its interval and keeps `pos.y`. -/
theorem p2_x_bounds_range (e : ent_t) :
    ((SCREEN_WIDTH / 2 : Int) : ℚ) + NET_WIDTH / 2 + 1 ≤ (p2_x_bounds e).pos.x
    ∧ (p2_x_bounds e).pos.x ≤ (SCREEN_WIDTH : ℚ) - 2 * PLAYER_RADIUS - 1
    ∧ (p2_x_bounds e).pos.y = e.pos.y := by
  simp only [p2_x_bounds]
  split_ifs with h1 h2
  · refine ⟨?_, le_refl _, rfl⟩
    simp only [SCREEN_WIDTH, NET_WIDTH, PLAYER_RADIUS]
    norm_num
  · refine ⟨le_refl _, ?_, rfl⟩
    simp only [SCREEN_WIDTH, NET_WIDTH, PLAYER_RADIUS]
    norm_num
  · exact ⟨not_lt.mp h2, not_lt.mp h1, rfl⟩

/-- The position of player 1 after a tick. -/
theorem update_match_p1_pos (sqrt : ℚ → ℚ) (net : ent_t) (g : game_t) :
    (update_match sqrt net g).match_.p1.ent.pos
      = (p1_x_bounds (update_player g.match_.p1).ent).pos := by
  rw [update_match_p1, pb_coll_handler_fst, update_rect_pos, floor_step_p1]

/-- The position of player 2 after a tick. -/
theorem update_match_p2_pos (sqrt : ℚ → ℚ) (net : ent_t) (g : game_t) :
    (update_match sqrt net g).match_.p2.ent.pos
      = (p2_x_bounds (update_player g.match_.p2).ent).pos := by
  rw [update_match_p2, pb_coll_handler_fst, update_rect_pos, floor_step_p2]

/-- C12. Players stay in their own half: when the player sizes are those set by `new_game`
(`rect.w = 2*PLAYER_RADIUS`, `rect.h = PLAYER_RADIUS`), then for any velocities and
accelerations, after `update_match` player 1's box lies horizontally within
`[0, left edge of the net]`, player 2's box within `[right edge of the net, SCREEN_WIDTH]`,
and each player's lowest point `pos.y + rect.h` is at most `PLAY_HEIGHT`. -/
theorem C12_players_stay_in_half (sqrt : ℚ → ℚ) (net : ent_t) (g : game_t)
    (h1w : g.match_.p1.ent.rect.w = to_uint16 (2 * PLAYER_RADIUS))
    (h1h : g.match_.p1.ent.rect.h = to_uint16 PLAYER_RADIUS)
    (h2w : g.match_.p2.ent.rect.w = to_uint16 (2 * PLAYER_RADIUS))
    (h2h : g.match_.p2.ent.rect.h = to_uint16 PLAYER_RADIUS) :
    (0 ≤ (update_match sqrt net g).match_.p1.ent.pos.x
      ∧ (update_match sqrt net g).match_.p1.ent.pos.x
          + ((update_match sqrt net g).match_.p1.ent.rect.w : ℚ) ≤ net_full_main.pos.x)
    ∧ (net_full_main.pos.x + (net_full_main.rect.w : ℚ)
          ≤ (update_match sqrt net g).match_.p2.ent.pos.x
      ∧ (update_match sqrt net g).match_.p2.ent.pos.x
          + ((update_match sqrt net g).match_.p2.ent.rect.w : ℚ) ≤ (SCREEN_WIDTH : ℚ))
    ∧ (update_match sqrt net g).match_.p1.ent.pos.y
          + ((update_match sqrt net g).match_.p1.ent.rect.h : ℚ) ≤ PLAY_HEIGHT
    ∧ (update_match sqrt net g).match_.p2.ent.pos.y
          + ((update_match sqrt net g).match_.p2.ent.rect.h : ℚ) ≤ PLAY_HEIGHT := by
  obtain ⟨-, ⟨f1w, f1h, -⟩, ⟨f2w, f2h, -⟩⟩ := update_match_frame sqrt net g
  rw [f1w, f1h, f2w, f2h, h1w, h1h, h2w, h2h, to_uint16_player_w, to_uint16_player_h,
    update_match_p1_pos, update_match_p2_pos]
  obtain ⟨a1, a2, a3⟩ := p1_x_bounds_range (update_player g.match_.p1).ent
  obtain ⟨b1, b2, b3⟩ := p2_x_bounds_range (update_player g.match_.p2).ent
  have c1 := update_player_floor g.match_.p1
  have c2 := update_player_floor g.match_.p2
  have hnw : net_full_main.rect.w = 8 := to_uint16_net_w
  have hnx : net_full_main.pos.x = ((SCREEN_WIDTH / 2 : Int) : ℚ) - NET_WIDTH / 2 := rfl
  rw [a3, b3, hnw, hnx]
  simp only [SCREEN_WIDTH, NET_WIDTH, PLAYER_RADIUS, PLAY_HEIGHT] at *
  norm_num at *
  refine ⟨⟨a1, ?_⟩, ⟨?_, ?_⟩, ?_, ?_⟩ <;> linarith

/-- Witness of C12: both players rushing at the net and at the floor. -/
theorem C12_players_stay_in_half_witness :
    (0 ≤ (update_match sqrtQ net_full_main game_rush).match_.p1.ent.pos.x
      ∧ (update_match sqrtQ net_full_main game_rush).match_.p1.ent.pos.x
          + ((update_match sqrtQ net_full_main game_rush).match_.p1.ent.rect.w : ℚ)
        ≤ net_full_main.pos.x)
    ∧ (update_match sqrtQ net_full_main game_rush).match_.p2.ent.pos.y
          + ((update_match sqrtQ net_full_main game_rush).match_.p2.ent.rect.h : ℚ)
        ≤ PLAY_HEIGHT :=
  ⟨(C12_players_stay_in_half sqrtQ net_full_main game_rush (by decide!) (by decide!)
      (by decide!) (by decide!)).1,
   (C12_players_stay_in_half sqrtQ net_full_main game_rush (by decide!) (by decide!)
      (by decide!) (by decide!)).2.2.2⟩

/-! ## C13: the narrow-phase test of line 195 -/

/-- C13 (the code at a failing input). The boxes of `player_rest` and `ball_corner` overlap,
`delta = (30, -40)` has `delta.y ≤ 0`, and the centres are `50` apart, which is not less
than `BALL_RADIUS + PLAYER_RADIUS = 46`; yet `pb_coll_handler` assigns a new velocity,
because line 195 compares `tmp = -86990` (the textual expansion of `POW2` of a difference)
with `406` (the expansion of `POW2(BALL_RADIUS + PLAYER_RADIUS)`), not `2500` with `2116`. -/
theorem C13_narrow_phase_failing_input :
    aabbox_coll player_rest.ent ball_corner = 1
    ∧ (delta player_rest ball_corner).y ≤ 0
    ∧ delta player_rest ball_corner = { x := 30, y := -40 }
    ∧ ¬ norm_sq (delta player_rest ball_corner)
        < (BALL_RADIUS + PLAYER_RADIUS) * (BALL_RADIUS + PLAYER_RADIUS)
    ∧ sqrtQ (norm_sq (delta player_rest ball_corner))
          * sqrtQ (norm_sq (delta player_rest ball_corner))
        = norm_sq (delta player_rest ball_corner)
    ∧ narrow_tmp player_rest ball_corner = -86990
    ∧ narrow_bound = 406
    ∧ pb_assigns player_rest ball_corner
    ∧ (pb_coll_handler sqrtQ player_rest ball_corner).2.vel ≠ ball_corner.vel
    ∧ (pb_coll_handler sqrtQ player_rest ball_corner).2.vel
        = { x := 3 * 30 / (50 + EPSILON), y := 3 * (-40) / (50 + EPSILON) } := by
  decide!

/-- What the test of line 195 compares, in closed form. -/
theorem narrow_test_closed_form (p : player_t) (b : ent_t) :
    (narrow_tmp p b < narrow_bound) ↔
      b.pos.x * (1 - (p.ent.pos.x + PLAYER_RADIUS)) + b.pos.y * (1 - (p.ent.pos.y + PLAYER_RADIUS))
        - (p.ent.pos.x + PLAYER_RADIUS) - (p.ent.pos.y + PLAYER_RADIUS) + 4 * BALL_RADIUS
        < BALL_RADIUS + PLAYER_RADIUS * BALL_RADIUS + PLAYER_RADIUS := by
  simp only [narrow_tmp, narrow_bound]
  constructor <;> intro h <;> linarith

/-! ## C14: the flat-side rule -/

/-- C14. Flat-side rule: for a player and ball whose boxes overlap, with `delta.y > 0`,
`pb_coll_handler` replaces the ball velocity by `(+speed, 0)` when
`ball.pos.x ≥ player.pos.x + 2*PLAYER_RADIUS - EPSILON`, by `(-speed, 0)` when
`ball.pos.x + 2*BALL_RADIUS ≤ player.pos.x - EPSILON`, and by `(0, +speed)` otherwise,
where `speed` is `|ball.vel| + |player.vel| + EPSILON` clamped to
`[MIN_BOUNCE_SPEED, MAX_BOUNCE_SPEED]`. -/
theorem C14_flat_side_rule (sqrt : ℚ → ℚ) (p : player_t) (b : ent_t)
    (ho : aabbox_coll p.ent b = 1) (hy : (delta p b).y > 0) :
    (b.pos.x ≥ p.ent.pos.x + 2 * PLAYER_RADIUS - EPSILON →
        (pb_coll_handler sqrt p b).2.vel = { x := bounce_speed sqrt p b, y := 0 })
    ∧ (b.pos.x + 2 * BALL_RADIUS ≤ p.ent.pos.x - EPSILON →
        (pb_coll_handler sqrt p b).2.vel = { x := -bounce_speed sqrt p b, y := 0 })
    ∧ (¬ b.pos.x ≥ p.ent.pos.x + 2 * PLAYER_RADIUS - EPSILON
        ∧ ¬ b.pos.x + 2 * BALL_RADIUS ≤ p.ent.pos.x - EPSILON →
        (pb_coll_handler sqrt p b).2.vel = { x := 0, y := bounce_speed sqrt p b })
    ∧ bounce_speed sqrt p b
        = max MIN_BOUNCE_SPEED (min MAX_BOUNCE_SPEED
            (sqrt (norm_sq b.vel) + sqrt (norm_sq p.ent.vel) + EPSILON)) := by
  have h0 : aabbox_coll p.ent b ≠ 0 := by rw [ho]; decide
  rw [pb_coll_handler_flat sqrt p b h0 hy]
  refine ⟨fun h1 => ?_, fun h2 => ?_, fun h => ?_, ?_⟩
  · rw [if_pos h1]
  · have h1 : ¬ b.pos.x ≥ p.ent.pos.x + 2 * PLAYER_RADIUS - EPSILON := by
      intro h1
      simp only [PLAYER_RADIUS, BALL_RADIUS] at h1 h2
      linarith
    rw [if_neg h1, if_pos h2]
  · rw [if_neg h.1, if_neg h.2]
  · simp only [bounce_speed, norm_sq]
    have hmm : MIN_BOUNCE_SPEED ≤ MAX_BOUNCE_SPEED := by
      simp only [MIN_BOUNCE_SPEED, MAX_BOUNCE_SPEED]; norm_num
    split_ifs with a1 a2
    · rw [min_eq_right (le_of_lt (lt_of_lt_of_le a1 hmm)), max_eq_left (le_of_lt a1)]
    · rw [min_eq_left (le_of_lt a2), max_eq_right hmm]
    · rw [min_eq_right (not_lt.mp a2), max_eq_right (not_lt.mp a1)]

/-- Witness of C14: one ball for each of the three cases. -/
theorem C14_flat_side_rule_witness :
    (pb_coll_handler sqrtQ player_jump ball_right_flank).2.vel
        = { x := bounce_speed sqrtQ player_jump ball_right_flank, y := 0 }
    ∧ (pb_coll_handler sqrtQ player_jump ball_wide_left).2.vel
        = { x := -bounce_speed sqrtQ player_jump ball_wide_left, y := 0 }
    ∧ (pb_coll_handler sqrtQ player_jump ball_flat).2.vel
        = { x := 0, y := bounce_speed sqrtQ player_jump ball_flat } :=
  ⟨(C14_flat_side_rule sqrtQ player_jump ball_right_flank (by decide!) (by decide!)).1
      (by decide!),
   (C14_flat_side_rule sqrtQ player_jump ball_wide_left (by decide!) (by decide!)).2.1
      (by decide!),
   (C14_flat_side_rule sqrtQ player_jump ball_flat (by decide!) (by decide!)).2.2.1
      (by decide!)⟩

/-! ## C15: grazing the top of the net -/

/-- C15. Net top graze: for a ball that overlaps the net box with its bottom at most
`NET_EPSILON` below the net's top, the net step of `update_match` negates `vel.y`, sets
`pos.y = PLAY_HEIGHT - NET_HEIGHT - 2*BALL_RADIUS` (so that the ball's bottom is exactly
the top of the net of `main`), and leaves `pos.x` and `vel.x` unchanged. -/
theorem C15_net_top_graze (net b : ent_t) (ho : aabbox_coll net b = 1)
    (hs : b.pos.y + 2 * BALL_RADIUS - NET_EPSILON ≤ net.pos.y) :
    (net_step net b).vel.y = -b.vel.y
    ∧ (net_step net b).pos.y = PLAY_HEIGHT - NET_HEIGHT - 2 * BALL_RADIUS
    ∧ (net_step net b).pos.x = b.pos.x
    ∧ (net_step net b).vel.x = b.vel.x
    ∧ PLAY_HEIGHT - NET_HEIGHT - 2 * BALL_RADIUS + 2 * BALL_RADIUS = net_full_main.pos.y := by
  have h0 : aabbox_coll net b ≠ 0 := by rw [ho]; decide
  have hs2 : ¬ b.pos.y + 2 * BALL_RADIUS - NET_EPSILON > net.pos.y := not_lt.mpr hs
  have hstep : net_step net b
      = ⟨⟨b.pos.x, PLAY_HEIGHT - NET_HEIGHT - 2 * BALL_RADIUS⟩, b.rect, b.acc,
          ⟨b.vel.x, b.vel.y * -1⟩⟩ := by
    simp only [net_step, if_pos h0, if_neg hs2]
  rw [hstep]
  refine ⟨?_, rfl, rfl, rfl, ?_⟩
  · show b.vel.y * -1 = -b.vel.y
    ring
  · simp only [net_full_main]
    ring

/-- Witness of C15. -/
theorem C15_net_top_graze_witness :
    (net_step net_full_main ball_net_top).vel.y = -3
    ∧ (net_step net_full_main ball_net_top).pos.y = PLAY_HEIGHT - NET_HEIGHT - 2 * BALL_RADIUS
    ∧ (net_step net_full_main ball_net_top).pos.x = ball_net_top.pos.x
    ∧ (net_step net_full_main ball_net_top).vel.x = ball_net_top.vel.x := by
  have h := C15_net_top_graze net_full_main ball_net_top (by decide!) (by decide!)
  exact ⟨h.1, h.2.1, h.2.2.1, h.2.2.2.1⟩

/-! ## C16: the clamp intervals of the two players -/

/-- The admissible left edges of player 1 are `[0, SCREEN_WIDTH/2 - NET_WIDTH/2 -
2*PLAYER_RADIUS - 2]`. -/
theorem p1_admissible_iff (x : ℚ) :
    p1_admissible x ↔
      0 ≤ x ∧ x ≤ ((SCREEN_WIDTH / 2 : Int) : ℚ) - NET_WIDTH / 2 - 2 * PLAYER_RADIUS - 2 := by
  have hpos : (0 : ℚ) < ((SCREEN_WIDTH / 2 : Int) : ℚ) - NET_WIDTH / 2 - 2 * PLAYER_RADIUS - 2 := by
    simp only [SCREEN_WIDTH, NET_WIDTH, PLAYER_RADIUS]; norm_num
  simp only [p1_admissible, p1_x_bounds]
  split_ifs with h1 h2
  · constructor
    · intro h; exact absurd h.le (not_le.mpr h1)
    · intro h; exact absurd h.1 (not_le.mpr h1)
  · constructor
    · intro h; exact absurd h.symm.le (not_le.mpr h2)
    · intro h; exact absurd h.2 (not_le.mpr h2)
  · exact ⟨fun _ => ⟨not_lt.mp h1, not_lt.mp h2⟩, fun _ => rfl⟩

/-- The admissible left edges of player 2 are `[SCREEN_WIDTH/2 + NET_WIDTH/2 + 1,
SCREEN_WIDTH - 2*PLAYER_RADIUS - 1]`. -/
theorem p2_admissible_iff (x : ℚ) :
    p2_admissible x ↔
      ((SCREEN_WIDTH / 2 : Int) : ℚ) + NET_WIDTH / 2 + 1 ≤ x
        ∧ x ≤ (SCREEN_WIDTH : ℚ) - 2 * PLAYER_RADIUS - 1 := by
  simp only [p2_admissible, p2_x_bounds]
  split_ifs with h1 h2
  · constructor
    · intro h; exact absurd h.symm.le (not_le.mpr h1)
    · intro h; exact absurd h.2 (not_le.mpr h1)
  · constructor
    · intro h; exact absurd h.le (not_le.mpr h2)
    · intro h; exact absurd h.1 (not_le.mpr h2)
  · exact ⟨fun _ => ⟨not_lt.mp h2, not_lt.mp h1⟩, fun _ => rfl⟩

/-- Counterexample to C16 as stated: `x = 0` is admissible for player 1 but its mirror image
`SCREEN_WIDTH - 2*PLAYER_RADIUS - 0 = 678` is not admissible for player 2, and `x = 298` is
not admissible for player 1 although `678 - 298 = 380` is admissible for player 2. -/
theorem C16_mirrored_ranges_counterexample :
    (p1_admissible 0 ∧ ¬ p2_admissible ((SCREEN_WIDTH : ℚ) - 2 * PLAYER_RADIUS - 0))
    ∧ (¬ p1_admissible 298 ∧ p2_admissible ((SCREEN_WIDTH : ℚ) - 2 * PLAYER_RADIUS - 298)) := by
  decide!

/-- C16 (amended). Player ranges: `update_match` clamps player 1's `pos.x` to
`[0, SCREEN_WIDTH/2 - NET_WIDTH/2 - 2*PLAYER_RADIUS - 2]` and player 2's to
`[SCREEN_WIDTH/2 + NET_WIDTH/2 + 1, SCREEN_WIDTH - 2*PLAYER_RADIUS - 1]`; the second is the
image of the first under `x ↦ SCREEN_WIDTH - 2*PLAYER_RADIUS - 1 - x`, the mirror image
shifted by one. -/
theorem C16_mirrored_ranges (x : ℚ) :
    (p1_admissible x ↔
        0 ≤ x ∧ x ≤ ((SCREEN_WIDTH / 2 : Int) : ℚ) - NET_WIDTH / 2 - 2 * PLAYER_RADIUS - 2)
    ∧ (p2_admissible x ↔
        ((SCREEN_WIDTH / 2 : Int) : ℚ) + NET_WIDTH / 2 + 1 ≤ x
          ∧ x ≤ (SCREEN_WIDTH : ℚ) - 2 * PLAYER_RADIUS - 1)
    ∧ (p1_admissible x ↔ p2_admissible ((SCREEN_WIDTH : ℚ) - 2 * PLAYER_RADIUS - 1 - x)) := by
  refine ⟨p1_admissible_iff x, p2_admissible_iff x, ?_⟩
  rw [p1_admissible_iff, p2_admissible_iff]
  simp only [SCREEN_WIDTH, NET_WIDTH, PLAYER_RADIUS]
  norm_num
  constructor
  · rintro ⟨h1, h2⟩
    constructor <;> linarith
  · rintro ⟨h1, h2⟩
    constructor <;> linarith

/-! ## C17: the score invariant of the frame loop -/

/-- The three possible effects of `floor_step` on the scores and on `winner`. -/
theorem floor_step_scores (g : game_t) :
    ((floor_step g).winner = g.winner ∧ (floor_step g).s1 = g.s1 ∧ (floor_step g).s2 = g.s2)
    ∨ ((floor_step g).winner = 2 ∧ (floor_step g).s1 = g.s1 ∧ (floor_step g).s2 = g.s2 + 1)
    ∨ ((floor_step g).winner = 1 ∧ (floor_step g).s1 = g.s1 + 1 ∧ (floor_step g).s2 = g.s2) := by
  simp only [floor_step]
  split_ifs
  · exact Or.inr (Or.inl ⟨rfl, rfl, rfl⟩)
  · exact Or.inr (Or.inr ⟨rfl, rfl, rfl⟩)
  · exact Or.inl ⟨rfl, rfl, rfl⟩

/-- Resetting for the serve keeps sizes and gravities. -/
theorem serve_state_initialised (g : game_t) (hi : initialised g) :
    initialised (serve_state g) := by
  obtain ⟨hbw, hbh, hba, h1w, h1h, h1a, h2w, h2h, h2a⟩ := hi
  exact ⟨hbw, hbh, hba, h1w, h1h, h1a, h2w, h2h, h2a⟩

/-- `new_match` keeps sizes and gravities. -/
theorem new_match_initialised (sqrt : ℚ → ℚ) (net : ent_t) (g : game_t) (hi : initialised g) :
    initialised (new_match sqrt net g) :=
  update_match_initialised sqrt net _ (serve_state_initialised g hi)

/-- `new_game` sets sizes and gravities. -/
theorem new_game_initialised (sqrt : ℚ → ℚ) (net : ent_t) (g : game_t) :
    initialised (new_game sqrt net g) := by
  unfold new_game
  exact new_match_initialised sqrt net _ ⟨rfl, rfl, rfl, rfl, rfl, rfl, rfl, rfl, rfl⟩

/-- The control inputs do not touch sizes, gravities or the ball. -/
theorem apply_controls_initialised (k : keys_t) (g : game_t) (hi : initialised g) :
    initialised (apply_controls k g) := by
  obtain ⟨hbw, hbh, hba, h1w, h1h, h1a, h2w, h2h, h2a⟩ := hi
  exact ⟨hbw, hbh, hba, h1w, h1h, h1a, h2w, h2h, h2a⟩

/-- `new_game` establishes the loop invariant. -/
theorem new_game_loop_inv (sqrt : ℚ → ℚ) (net : ent_t) (g : game_t) :
    loop_inv (new_game sqrt net g) := by
  obtain ⟨h1, h2, hw⟩ := new_game_scores sqrt net g
  refine ⟨new_game_initialised sqrt net g, hw, ?_, ?_, ?_, ?_⟩ <;>
    simp only [h1, h2, MAX_SCORE] <;> decide

/-- The scores right after the tick of a frame that starts in the invariant. -/
theorem tick_scores (sqrt : ℚ → ℚ) (net : ent_t) (k : keys_t) (g : game_t) (h : loop_inv g) :
    ((update_match sqrt net (apply_controls k g)).winner = 0
        ∧ (update_match sqrt net (apply_controls k g)).s1 = g.s1
        ∧ (update_match sqrt net (apply_controls k g)).s2 = g.s2)
    ∨ ((update_match sqrt net (apply_controls k g)).winner = 2
        ∧ (update_match sqrt net (apply_controls k g)).s1 = g.s1
        ∧ (update_match sqrt net (apply_controls k g)).s2 = g.s2 + 1)
    ∨ ((update_match sqrt net (apply_controls k g)).winner = 1
        ∧ (update_match sqrt net (apply_controls k g)).s1 = g.s1 + 1
        ∧ (update_match sqrt net (apply_controls k g)).s2 = g.s2) := by
  rw [update_match_winner, update_match_s1, update_match_s2]
  have hw : (apply_controls k g).winner = 0 := h.2.1
  have hs := floor_step_scores (apply_controls k g)
  rw [hw] at hs
  exact hs

/-- One frame preserves the loop invariant. -/
theorem frame_loop_inv (sqrt : ℚ → ℚ) (net : ent_t) (k : keys_t) (g : game_t)
    (h : loop_inv g) : loop_inv (frame sqrt net k g) := by
  have hi : initialised (update_match sqrt net (apply_controls k g)) :=
    update_match_initialised sqrt net _ (apply_controls_initialised k g h.1)
  have hacc : (update_match sqrt net (apply_controls k g)).match_.ball.acc.y = BALL_GRAVITY := by
    rw [hi.2.2.1]
  have ht := tick_scores sqrt net k g h
  obtain ⟨-, -, a1, a2, b1, b2⟩ := h
  simp only [MAX_SCORE] at a2 b2
  unfold frame point_end
  rcases ht with ⟨hw, h1, h2⟩ | ⟨hw, h1, h2⟩ | ⟨hw, h1, h2⟩
  · rw [if_neg (by rw [hw]; decide)]
    refine ⟨hi, hw, ?_, ?_, ?_, ?_⟩ <;> simp only [h1, h2, MAX_SCORE] <;> omega
  all_goals
    rw [if_pos (by rw [hw]; decide)]
    split_ifs with hs
    · exact new_game_loop_inv sqrt net _
    · obtain ⟨n1, n2, nw⟩ := new_match_scores sqrt net _ hacc
      simp only [MAX_SCORE, h1, h2] at hs
      refine ⟨new_match_initialised sqrt net _ hi, nw, ?_, ?_, ?_, ?_⟩ <;>
        simp only [n1, n2, h1, h2, MAX_SCORE] <;> omega

/-- Every run of the frame loop preserves the loop invariant. -/
theorem run_frames_loop_inv (sqrt : ℚ → ℚ) (net : ent_t) (ks : List keys_t) :
    ∀ g : game_t, loop_inv g → loop_inv (run_frames sqrt net ks g) := by
  induction ks with
  | nil => intro g h; exact h
  | cons k ks ih => intro g h; exact ih _ (frame_loop_inv sqrt net k g h)

/-- C17. Score bound invariant of the frame loop: starting from the state produced by
`new_game`, for every sequence of key inputs, at the start of every frame `winner = 0` and
`0 ≤ s1, s2 ≤ MAX_SCORE - 1`, and the scores right after `update_match` in that frame
(whatever its key input) do not exceed `MAX_SCORE`. -/
theorem C17_score_bound_invariant (sqrt : ℚ → ℚ) (net0 net : ent_t) (g0 : game_t)
    (ks : List keys_t) (k : keys_t) :
    (run_frames sqrt net ks (new_game sqrt net0 g0)).winner = 0
    ∧ (0 ≤ (run_frames sqrt net ks (new_game sqrt net0 g0)).s1
      ∧ (run_frames sqrt net ks (new_game sqrt net0 g0)).s1 ≤ MAX_SCORE - 1)
    ∧ (0 ≤ (run_frames sqrt net ks (new_game sqrt net0 g0)).s2
      ∧ (run_frames sqrt net ks (new_game sqrt net0 g0)).s2 ≤ MAX_SCORE - 1)
    ∧ (update_match sqrt net
          (apply_controls k (run_frames sqrt net ks (new_game sqrt net0 g0)))).s1 ≤ MAX_SCORE
    ∧ (update_match sqrt net
          (apply_controls k (run_frames sqrt net ks (new_game sqrt net0 g0)))).s2 ≤ MAX_SCORE := by
  have h := run_frames_loop_inv sqrt net ks _ (new_game_loop_inv sqrt net0 g0)
  have ht := tick_scores sqrt net k _ h
  obtain ⟨-, hw, a1, a2, b1, b2⟩ := h
  refine ⟨hw, ⟨a1, a2⟩, ⟨b1, b2⟩, ?_, ?_⟩ <;>
    rcases ht with ⟨-, h1, h2⟩ | ⟨-, h1, h2⟩ | ⟨-, h1, h2⟩ <;>
    simp only [h1, h2, MAX_SCORE] at * <;> omega

/-! ## C18: the left-flank branch -/

/-- Overlap excludes each of the four separating conditions. -/
theorem aabbox_coll_overlap (e1 e2 : ent_t) (h : aabbox_coll e1 e2 = 1) :
    ¬ (e1.pos.y + (e1.rect.h : ℚ) ≤ e2.pos.y) ∧ ¬ (e1.pos.y ≥ e2.pos.y + (e2.rect.h : ℚ))
    ∧ ¬ (e1.pos.x + (e1.rect.w : ℚ) ≤ e2.pos.x) ∧ ¬ (e1.pos.x ≥ e2.pos.x + (e2.rect.w : ℚ)) := by
  unfold aabbox_coll at h
  split_ifs at h with h1 h2 h3 h4
  · exact absurd h (by decide)
  · exact absurd h (by decide)
  · exact absurd h (by decide)
  · exact absurd h (by decide)
  · exact ⟨h1, h2, h3, h4⟩

/-- A box entirely to the left of another one does not overlap it. -/
theorem aabbox_coll_left (e1 e2 : ent_t) (h : e1.pos.x + (e1.rect.w : ℚ) ≤ e2.pos.x) :
    aabbox_coll e1 e2 = 0 := by
  unfold aabbox_coll
  split_ifs <;> rfl

/-- A box entirely to the right of another one does not overlap it. -/
theorem aabbox_coll_right (e1 e2 : ent_t) (h : e2.pos.x + (e2.rect.w : ℚ) ≤ e1.pos.x) :
    aabbox_coll e1 e2 = 0 := by
  unfold aabbox_coll
  split_ifs <;> rfl

/-- C18. Left-flank branch is unreachable: for a ball of width `rect.w = 2*BALL_RADIUS`
whose box overlaps the player's, the left-flank condition
`ball.pos.x + 2*BALL_RADIUS ≤ player.pos.x - EPSILON` is false; hence when `delta.y > 0`
the x-component of the velocity assigned by `pb_coll_handler` is `≥ 0` and the result is
not `(-speed, 0)`. -/
theorem C18_left_flank_unreachable (sqrt : ℚ → ℚ) (p : player_t) (b : ent_t)
    (hw : (b.rect.w : ℚ) = 2 * BALL_RADIUS) (ho : aabbox_coll p.ent b = 1) :
    ¬ (b.pos.x + 2 * BALL_RADIUS ≤ p.ent.pos.x - EPSILON)
    ∧ ((delta p b).y > 0 →
        0 ≤ (pb_coll_handler sqrt p b).2.vel.x
        ∧ (pb_coll_handler sqrt p b).2.vel ≠ { x := -bounce_speed sqrt p b, y := 0 }) := by
  have h4 := (aabbox_coll_overlap p.ent b ho).2.2.2
  rw [hw] at h4
  have heps : (0 : ℚ) < EPSILON := by simp only [EPSILON]; norm_num
  have hleft : ¬ (b.pos.x + 2 * BALL_RADIUS ≤ p.ent.pos.x - EPSILON) := by
    intro h
    apply h4
    show b.pos.x + 2 * BALL_RADIUS ≤ p.ent.pos.x
    linarith
  have hsp : (0 : ℚ) < bounce_speed sqrt p b := by
    have : (0 : ℚ) < MIN_BOUNCE_SPEED := by simp only [MIN_BOUNCE_SPEED]; norm_num
    linarith [(bounce_speed_bounds sqrt p b).1]
  refine ⟨hleft, fun hy => ?_⟩
  have h0 : aabbox_coll p.ent b ≠ 0 := by rw [ho]; decide
  have hx : 0 ≤ (pb_coll_handler sqrt p b).2.vel.x := by
    rw [pb_coll_handler_flat sqrt p b h0 hy, if_neg hleft]
    split_ifs
    · exact hsp.le
    · exact le_refl _
  refine ⟨hx, fun hv => ?_⟩
  rw [hv] at hx
  have : (0 : ℚ) ≤ -bounce_speed sqrt p b := hx
  linarith

/-- Witness of C18. -/
theorem C18_left_flank_unreachable_witness :
    ¬ (ball_flat.pos.x + 2 * BALL_RADIUS ≤ player_jump.ent.pos.x - EPSILON)
    ∧ 0 ≤ (pb_coll_handler sqrtQ player_jump ball_flat).2.vel.x
    ∧ (pb_coll_handler sqrtQ player_jump ball_flat).2.vel
        ≠ { x := -bounce_speed sqrtQ player_jump ball_flat, y := 0 } :=
  ⟨(C18_left_flank_unreachable sqrtQ player_jump ball_flat (by decide!) (by decide!)).1,
   (C18_left_flank_unreachable sqrtQ player_jump ball_flat (by decide!) (by decide!)).2
     (by decide!)⟩

/-! ## C19: the ball is never left inside the net -/

/-- After the net step, a ball of size `2*BALL_RADIUS` does not overlap the net of `main`. -/
theorem net_step_clear (b : ent_t) (hw : b.rect.w = 20) (hh : b.rect.h = 20) :
    aabbox_coll net_full_main (net_step net_full_main b) = 0 := by
  have hnw : net_full_main.rect.w = 8 := to_uint16_net_w
  by_cases ho : aabbox_coll net_full_main b ≠ 0
  · by_cases hs : b.pos.y + 2 * BALL_RADIUS - NET_EPSILON > net_full_main.pos.y
    · by_cases hv : b.vel.x > 0
      · have hstep : net_step net_full_main b
            = ⟨⟨((SCREEN_WIDTH / 2 : Int) : ℚ) - NET_WIDTH / 2 - 2 * BALL_RADIUS, b.pos.y⟩,
                b.rect, b.acc, ⟨b.vel.x * -1, b.vel.y⟩⟩ := by
          simp only [net_step, if_pos ho, if_pos hs, if_pos hv]
        rw [hstep]
        apply aabbox_coll_right
        show ((SCREEN_WIDTH / 2 : Int) : ℚ) - NET_WIDTH / 2 - 2 * BALL_RADIUS + (b.rect.w : ℚ)
          ≤ net_full_main.pos.x
        rw [hw]
        simp only [net_full_main, BALL_RADIUS]
        norm_num
      · have hstep : net_step net_full_main b
            = ⟨⟨((SCREEN_WIDTH / 2 : Int) : ℚ) + NET_WIDTH / 2, b.pos.y⟩,
                b.rect, b.acc, ⟨b.vel.x * -1, b.vel.y⟩⟩ := by
          simp only [net_step, if_pos ho, if_pos hs, if_neg hv]
        rw [hstep]
        apply aabbox_coll_left
        show net_full_main.pos.x + (net_full_main.rect.w : ℚ)
          ≤ ((SCREEN_WIDTH / 2 : Int) : ℚ) + NET_WIDTH / 2
        rw [hnw]
        simp only [net_full_main, NET_WIDTH]
        linarith
    · have hstep : net_step net_full_main b
          = ⟨⟨b.pos.x, PLAY_HEIGHT - NET_HEIGHT - 2 * BALL_RADIUS⟩, b.rect, b.acc,
              ⟨b.vel.x, b.vel.y * -1⟩⟩ := by
        simp only [net_step, if_pos ho, if_neg hs]
      rw [hstep]
      apply aabbox_coll_below
      show PLAY_HEIGHT - NET_HEIGHT - 2 * BALL_RADIUS + (b.rect.h : ℚ) ≤ net_full_main.pos.y
      rw [hh]
      simp only [net_full_main, BALL_RADIUS]
      norm_num
  · rw [net_step_no_overlap _ _ (not_not.mp ho)]
    exact not_not.mp ho

/-- C19. Ball is never left inside the net: with `net_full` as set up in `main` and the
ball's size as set by `new_game`, for every game state the ball after `update_match` does
not overlap the net: `aabbox_coll(net_full, ball) = 0`. -/
theorem C19_ball_never_in_net (sqrt : ℚ → ℚ) (g : game_t)
    (hw : g.match_.ball.rect.w = to_uint16 (BALL_RADIUS * 2))
    (hh : g.match_.ball.rect.h = to_uint16 (BALL_RADIUS * 2)) :
    aabbox_coll net_full_main (update_match sqrt net_full_main g).match_.ball = 0 := by
  rw [update_match_ball]
  have hr : ∀ e : ent_t, aabbox_coll net_full_main (update_rect e) = aabbox_coll net_full_main e :=
    fun _ => rfl
  rw [hr]
  apply net_step_clear
  · rw [(pb_coll_handler_snd_frame _ _ _).2.1, (pb_coll_handler_snd_frame _ _ _).2.1,
      (ball_x_bounds_frame _).1, (floor_step_ball_frame g).1, hw, to_uint16_ball]
  · rw [(pb_coll_handler_snd_frame _ _ _).2.1, (pb_coll_handler_snd_frame _ _ _).2.1,
      (ball_x_bounds_frame _).1, (floor_step_ball_frame g).1, hh, to_uint16_ball]

/-- Witness of C19: a ball that overlaps the net before the tick. -/
theorem C19_ball_never_in_net_witness :
    aabbox_coll net_full_main game_rush.match_.ball = 1
    ∧ aabbox_coll net_full_main (update_match sqrtQ net_full_main game_rush).match_.ball = 0 :=
  ⟨by decide!, C19_ball_never_in_net sqrtQ game_rush (by decide!) (by decide!)⟩

/-! ## C20: the ball stays in the court -/

/-- After the floor step the ball is not below the floor. -/
theorem floor_step_ball_y (g : game_t) :
    (floor_step g).match_.ball.pos.y ≤ PLAY_HEIGHT - BALL_RADIUS * 2 := by
  simp only [floor_step]
  split_ifs with h1 h2
  · exact le_refl _
  · exact le_refl _
  · exact not_lt.mp h1

/-- After the x-bounds step the ball is between the side walls. -/
theorem ball_x_bounds_range (b : ent_t) :
    0 ≤ (ball_x_bounds b).pos.x ∧ (ball_x_bounds b).pos.x ≤ (SCREEN_WIDTH : ℚ) - 2 * BALL_RADIUS := by
  have hpos : (0 : ℚ) ≤ (SCREEN_WIDTH : ℚ) - 2 * BALL_RADIUS := by
    simp only [SCREEN_WIDTH, BALL_RADIUS]; norm_num
  simp only [ball_x_bounds]
  split_ifs with h1 h2
  · exact ⟨le_refl _, hpos⟩
  · exact ⟨hpos, le_refl _⟩
  · exact ⟨(not_le.mp h1).le, (not_le.mp h2).le⟩

/-- The net step keeps a ball inside the court inside the court. -/
theorem net_step_range (net b : ent_t) (hx0 : 0 ≤ b.pos.x)
    (hx1 : b.pos.x ≤ (SCREEN_WIDTH : ℚ) - 2 * BALL_RADIUS)
    (hy : b.pos.y ≤ PLAY_HEIGHT - BALL_RADIUS * 2) :
    0 ≤ (net_step net b).pos.x ∧ (net_step net b).pos.x ≤ (SCREEN_WIDTH : ℚ) - 2 * BALL_RADIUS
    ∧ (net_step net b).pos.y ≤ PLAY_HEIGHT - BALL_RADIUS * 2 := by
  simp only [net_step]
  split_ifs
  · refine ⟨?_, ?_, hy⟩ <;> simp only [SCREEN_WIDTH, NET_WIDTH, BALL_RADIUS] <;> norm_num
  · refine ⟨?_, ?_, hy⟩ <;> simp only [SCREEN_WIDTH, NET_WIDTH, BALL_RADIUS] <;> norm_num
  · refine ⟨hx0, hx1, ?_⟩
    simp only [PLAY_HEIGHT, NET_HEIGHT, BALL_RADIUS]
    norm_num
  · exact ⟨hx0, hx1, hy⟩

/-- C20. Ball stays in the court: for every game state, after `update_match` the ball
satisfies `0 ≤ pos.x ≤ SCREEN_WIDTH - 2*BALL_RADIUS` and
`pos.y ≤ PLAY_HEIGHT - 2*BALL_RADIUS`, the player and net resolvers included. -/
theorem C20_ball_stays_in_court (sqrt : ℚ → ℚ) (net : ent_t) (g : game_t) :
    0 ≤ (update_match sqrt net g).match_.ball.pos.x
    ∧ (update_match sqrt net g).match_.ball.pos.x ≤ (SCREEN_WIDTH : ℚ) - 2 * BALL_RADIUS
    ∧ (update_match sqrt net g).match_.ball.pos.y ≤ PLAY_HEIGHT - 2 * BALL_RADIUS := by
  rw [update_match_ball, update_rect_pos]
  have hb := ball_x_bounds_range (floor_step g).match_.ball
  have hy := floor_step_ball_y g
  rw [← (ball_x_bounds_frame (floor_step g).match_.ball).2.2.1] at hy
  have h := net_step_range net
    (pb_coll_handler sqrt
      { update_player (floor_step g).match_.p2 with
        ent := p2_x_bounds (update_player (floor_step g).match_.p2).ent }
      (pb_coll_handler sqrt
        { update_player (floor_step g).match_.p1 with
          ent := p1_x_bounds (update_player (floor_step g).match_.p1).ent }
        (ball_x_bounds (floor_step g).match_.ball)).2).2
    (by rw [(pb_coll_handler_snd_frame _ _ _).1, (pb_coll_handler_snd_frame _ _ _).1]; exact hb.1)
    (by rw [(pb_coll_handler_snd_frame _ _ _).1, (pb_coll_handler_snd_frame _ _ _).1]; exact hb.2)
    (by rw [(pb_coll_handler_snd_frame _ _ _).1, (pb_coll_handler_snd_frame _ _ _).1]; exact hy)
  refine ⟨h.1, h.2.1, ?_⟩
  have h3 := h.2.2
  rw [mul_comm BALL_RADIUS 2] at h3
  exact h3

end SlimeVball
